import Mathlib

/-!
Shallow embedding of the trading decision engine (indicator pipeline,
strategies, strategy manager, risk manager) of the repository, together
with theorems settling the frozen claims about it.

Modelling conventions:
* Python floats are modelled as exact rationals (`ℚ`).
* Python dicts keyed by strings are modelled as association lists; key
  absence is `Option`.
* A pandas column is a `List ℚ`, or `List (Option ℚ)` when entries can be
  NaN (an unfilled rolling window / shift).  Comparisons against NaN are
  `false`, as in Python.
* Mutation of a Python dict/DataFrame passed by reference is made explicit:
  a function that mutates its argument returns the mutated value as part of
  its result.
* Operations that can raise (negative `iloc` out of range) return `Except`.
* External collaborators (the exchange connection, wall clock, the `ta`
  indicator library) are passed in as explicit data.
-/

/-- Trade direction.  The source uses the strings `'BUY'` and `'SELL'`;
every branch treats any non-`'BUY'` side as the sell side, so a two-valued
type is faithful. -/
inductive Side where
  | BUY
  | SELL
deriving DecidableEq, Repr

/-- A signal dictionary as produced by the strategies and consumed by the
risk manager.  Optional fields model keys that may be absent from the
Python dict (`signal.get('price', 0)`, `'stop_loss' not in signal`,
`'confidence' in signal`). -/
structure Signal where
  strategy : String := ""
  symbol : String := ""
  side : Side
  price : Option ℚ := none
  quantity : ℚ := 0
  stop_loss : Option ℚ := none
  take_profit : Option ℚ := none
  confidence : Option ℚ := none
  timestamp : ℤ := 0
deriving DecidableEq, Repr

/-- One OHLCV candle (the `open` column is `open_p`: `open` is reserved). -/
structure Candle where
  open_time : ℤ := 0
  open_p : ℚ := 0
  high : ℚ := 0
  low : ℚ := 0
  close : ℚ := 0
  volume : ℚ := 0
deriving DecidableEq, Repr

/-- The Ichimoku parameter block of `config.ICHIMOKU`. -/
structure IchimokuParams where
  tenkan_period : Nat
  kijun_period : Nat
  senkou_span_b_period : Nat
  displacement : Nat
deriving DecidableEq, Repr

/-- The configuration object (`config.py`), restricted to the fields the
embedded components read. -/
structure Config where
  SYMBOL : String
  MAX_POSITION_SIZE : ℚ
  RISK_PER_TRADE : ℚ
  MAX_OPEN_TRADES : Nat
  USE_STOP_LOSS : Bool
  STOP_LOSS_PCT : ℚ
  TAKE_PROFIT_PCT : ℚ
  USE_TRAILING_STOP : Bool
  TRAILING_STOP_PCT : ℚ
  ENABLED_STRATEGIES : List String := []
  ICHIMOKU : IchimokuParams
  PIVOT_POINT_lookback_period : Nat := 1
deriving DecidableEq

/-- Python dict access `d[k]` / `k in d` over an association list:
first binding wins, as for a dict built left to right. -/
def dictGet {β : Type} (d : List (String × β)) (k : String) : Option β :=
  match d with
  | [] => none
  | (a, v) :: rest => if a = k then some v else dictGet rest k

/-- Python `str.upper()` for the ASCII strings used as trade sides. -/
def pyUpper (s : String) : String :=
  ⟨s.data.map Char.toUpper⟩

/-- Python slicing `symbol[:-4]` (e.g. `"BTC"` from `"BTCUSDT"`). -/
def baseAsset (symbol : String) : String :=
  (symbol.toList.take (symbol.length - 4)).asString

/-- Python slicing `symbol[-4:]` (e.g. `"USDT"` from `"BTCUSDT"`). -/
def quoteAsset (symbol : String) : String :=
  (symbol.toList.drop (symbol.length - 4)).asString

/-- Round-half-to-even on ℚ, the tie-breaking rule of Python's builtin
`round`. -/
def round_half_even (x : ℚ) : ℤ :=
  if x - ⌊x⌋ < 1/2 then ⌊x⌋
  else if 1/2 < x - ⌊x⌋ then ⌊x⌋ + 1
  else if Even ⌊x⌋ then ⌊x⌋ else ⌊x⌋ + 1

/-- Python `round(x, ndigits)` on exact rationals. -/
def round_to (ndigits : Nat) (x : ℚ) : ℚ :=
  (round_half_even (x * 10 ^ ndigits) : ℚ) / 10 ^ ndigits

namespace Utils

/-- Embedding of `utils.calculate_risk_reward_ratio(entry, stop_loss,
take_profit, side)`: per-side risk and reward distances, then
`0` on zero risk, else `reward / risk`. -/
def calculate_risk_reward_ratio (entry stop_loss take_profit : ℚ)
    (side : String) : ℚ :=
  let rr :=
    if pyUpper side = "BUY" then (|entry - stop_loss|, |take_profit - entry|)
    else (|stop_loss - entry|, |entry - take_profit|)
  if rr.1 = 0 then 0 else rr.2 / rr.1

end Utils

namespace BaseStrategy

/-- Embedding of `BaseStrategy.get_account_balance`: the quote-currency
free balance when a connection with that balance is present, else the
fallback `10000`.  The `connection` argument models `self.connection`
(`none` when no connection was injected). -/
def get_account_balance (cfg : Config)
    (connection : Option (List (String × ℚ))) : ℚ :=
  match connection with
  | some balances =>
    match dictGet balances (quoteAsset cfg.SYMBOL) with
    | some free => free
    | none => 10000
  | none => 10000

/-- Embedding of `BaseStrategy.calculate_position_size(price, side)`:
risk-based size, clamped by `MAX_POSITION_SIZE`, rounded to 6 decimals. -/
def calculate_position_size (cfg : Config)
    (connection : Option (List (String × ℚ))) (price : ℚ) (_side : Side) : ℚ :=
  let account_balance := get_account_balance cfg connection
  let risk_amount := account_balance * cfg.RISK_PER_TRADE
  let position_size := risk_amount / price
  let position_size := min position_size cfg.MAX_POSITION_SIZE
  round_to 6 position_size

end BaseStrategy

namespace RiskManager

/-- Risk-manager state after `update_account_state()` refreshed it from the
exchange: the configuration, the balance snapshot (asset ↦ `total`
balance), and the open positions (symbol ↦ side). -/
structure RMState where
  config : Config
  balances : List (String × ℚ)
  open_positions : List (String × Side)

/-- Embedding of `RiskManager.get_account_value`: total balance of the
quote currency, defaulting to `10000` when absent. -/
def get_account_value (st : RMState) : ℚ :=
  (dictGet st.balances (quoteAsset st.config.SYMBOL)).getD 10000

/-- Embedding of `RiskManager.calculate_exposure`: starting from `0.0`,
adds the base-currency total balance times the placeholder price `1.0`
for the configured symbol. -/
def calculate_exposure (st : RMState) : ℚ :=
  match dictGet st.balances (baseAsset st.config.SYMBOL) with
  | some total => 0 + total * 1
  | none => 0

/-- Embedding of `RiskManager.calculate_max_position_size(symbol, price)`:
the smaller of the risk-per-trade size and the configured maximum.  ℚ
division agrees with Python's float division for every nonzero price;
at price 0 Python instead raises `ZeroDivisionError`, while this
totalization yields 0 — `calculate_max_position_size_checked` below
models the raising behaviour. -/
def calculate_max_position_size (st : RMState) (_symbol : String)
    (price : ℚ) : ℚ :=
  let account_value := get_account_value st
  let risk_amount := account_value * st.config.RISK_PER_TRADE
  let max_position_from_risk := risk_amount / price
  min max_position_from_risk st.config.MAX_POSITION_SIZE

/-- The hard-coded exchange minimum `min_position_size = 0.00001` of
`validate_trade`. -/
def min_position_size : ℚ := 1/100000

/-- Check of `validate_trade` for an open position in the opposite
direction on the signal's symbol. -/
def oppositeDirectionConflict (open_positions : List (String × Side))
    (symbol : String) (side : Side) : Bool :=
  match dictGet open_positions symbol with
  | some current_side =>
    decide ((side = Side.BUY ∧ current_side = Side.SELL) ∨
            (side = Side.SELL ∧ current_side = Side.BUY))
  | none => false

/-- Embedding of `RiskManager.validate_trade(signal)`.  The state `st` is
the account snapshot the leading `update_account_state()` call produced.
The Python function mutates the signal dict in place and returns a bool;
the embedding returns the bool together with the signal as it is left in
the caller's hands (also on the rejection paths).  Through the totalized
division of `calculate_max_position_size`, this embedding is faithful
only for signals whose `price` is nonzero; `validate_trade_checked`
below also models the `ZeroDivisionError` the source raises when the
price key is missing or 0. -/
def validate_trade (st : RMState) (signal : Signal) : Bool × Signal :=
  let symbol := signal.symbol
  let side := signal.side
  let price := signal.price.getD 0
  if st.config.MAX_OPEN_TRADES ≤ st.open_positions.length then (false, signal)
  else if oppositeDirectionConflict st.open_positions symbol side then (false, signal)
  else
    let max_position_size := calculate_max_position_size st symbol price
    let quantity :=
      if max_position_size < signal.quantity then max_position_size
      else signal.quantity
    let signal1 := { signal with quantity := quantity }
    if quantity < min_position_size then (false, signal1)
    else
      let signal2 :=
        if st.config.USE_STOP_LOSS && signal1.stop_loss.isNone then
          { signal1 with stop_loss := some (if side = Side.BUY
              then price * (1 - st.config.STOP_LOSS_PCT)
              else price * (1 + st.config.STOP_LOSS_PCT)) }
        else signal1
      let signal3 :=
        if signal2.take_profit.isNone then
          { signal2 with take_profit := some (if side = Side.BUY
              then price * (1 + st.config.TAKE_PROFIT_PCT)
              else price * (1 - st.config.TAKE_PROFIT_PCT)) }
        else signal2
      let trade_value := quantity * price
      if calculate_exposure st + trade_value > get_account_value st * (9/10) then
        (false, signal3)
      else (true, signal3)

/-- Error-aware embedding of
`RiskManager.calculate_max_position_size(symbol, price)`: the
`risk_amount / price` division raises `ZeroDivisionError` in Python when
`price` is 0; for every other price ℚ division agrees with Python's and
the function returns `min(risk_amount / price, MAX_POSITION_SIZE)`,
i.e. the totalized `calculate_max_position_size`. -/
def calculate_max_position_size_checked (st : RMState) (symbol : String)
    (price : ℚ) : Except String ℚ :=
  if price = 0 then Except.error "ZeroDivisionError"
  else Except.ok (calculate_max_position_size st symbol price)

/-- Error-aware embedding of `RiskManager.validate_trade(signal)`: the
same step sequence as `validate_trade`, except that the
`calculate_max_position_size` call (made after the open-trade-count and
opposite-direction checks, with `signal.get('price', 0)`) raises
`ZeroDivisionError` when the price key is missing or 0, and that
exception propagates out of `validate_trade` uncaught.  The zero-price
guard below is `calculate_max_position_size_checked` expanded at its
call site.  For a nonzero price this function returns exactly
`Except.ok (validate_trade st signal)` (`validate_trade_checked_eq`). -/
def validate_trade_checked (st : RMState) (signal : Signal) :
    Except String (Bool × Signal) :=
  let symbol := signal.symbol
  let side := signal.side
  let price := signal.price.getD 0
  if st.config.MAX_OPEN_TRADES ≤ st.open_positions.length then
    Except.ok (false, signal)
  else if oppositeDirectionConflict st.open_positions symbol side then
    Except.ok (false, signal)
  else if price = 0 then Except.error "ZeroDivisionError"
  else
    let max_position_size := calculate_max_position_size st symbol price
    let quantity :=
      if max_position_size < signal.quantity then max_position_size
      else signal.quantity
    let signal1 := { signal with quantity := quantity }
    if quantity < min_position_size then Except.ok (false, signal1)
    else
      let signal2 :=
        if st.config.USE_STOP_LOSS && signal1.stop_loss.isNone then
          { signal1 with stop_loss := some (if side = Side.BUY
              then price * (1 - st.config.STOP_LOSS_PCT)
              else price * (1 + st.config.STOP_LOSS_PCT)) }
        else signal1
      let signal3 :=
        if signal2.take_profit.isNone then
          { signal2 with take_profit := some (if side = Side.BUY
              then price * (1 + st.config.TAKE_PROFIT_PCT)
              else price * (1 - st.config.TAKE_PROFIT_PCT)) }
        else signal2
      let trade_value := quantity * price
      if calculate_exposure st + trade_value > get_account_value st * (9/10) then
        Except.ok (false, signal3)
      else Except.ok (true, signal3)

/-- An open trade record as consumed by `adjust_stops`. -/
structure Trade where
  symbol : String
  side : Side
  price : ℚ
  stop_loss : ℚ
deriving DecidableEq, Repr

/-- The per-trade body of the `adjust_stops` loop.  `current_price_of`
stands for `get_current_price` (in the source a stub returning a fixed
placeholder; modelled as the external market-price input so that the
theorems cover every price feed, the stub included). -/
def adjustTrade (cfg : Config) (current_price_of : String → ℚ)
    (trade : Trade) : Trade :=
  let current_price := current_price_of trade.symbol
  if trade.side = Side.BUY then
    let new_stop := current_price * (1 - cfg.TRAILING_STOP_PCT)
    if new_stop > trade.stop_loss then { trade with stop_loss := new_stop }
    else trade
  else
    let new_stop := current_price * (1 + cfg.TRAILING_STOP_PCT)
    if new_stop < trade.stop_loss then { trade with stop_loss := new_stop }
    else trade

/-- Embedding of `RiskManager.adjust_stops(open_trades)`: a no-op when
trailing stops are disabled, otherwise each open trade's stop is updated
independently in place. -/
def adjust_stops (cfg : Config) (current_price_of : String → ℚ)
    (open_trades : List Trade) : List Trade :=
  if cfg.USE_TRAILING_STOP = false then open_trades
  else open_trades.map (adjustTrade cfg current_price_of)

/-- One `adjust_stops` cycle acting on a single open trade. -/
def adjustCycle (cfg : Config) (trade : Trade)
    (current_price_of : String → ℚ) : Trade :=
  (adjust_stops cfg current_price_of [trade]).headD trade

/-- The sequence of stop-loss values a single open trade goes through
under repeated `adjust_stops` cycles, one market snapshot per cycle
(initial stop first). -/
def trailingStops (cfg : Config) (trade : Trade)
    (snapshots : List (String → ℚ)) : List ℚ :=
  (List.scanl (adjustCycle cfg) trade snapshots).map (·.stop_loss)

end RiskManager

namespace StrategyManager

/-- A loaded strategy registry: strategy name ↦ its `generate_signals`
function over the shared data snapshot (of an arbitrary type `α`); a
strategy that raises is modelled by an `Except.error`. -/
def Registry (α : Type) : Type :=
  List (String × (α → Except String (List Signal)))

/-- The body of the `generate_signals` loop for one enabled strategy name:
nothing when the name is not in the registry (`continue`), nothing when
the strategy raises (caught and logged), its signals otherwise. -/
def contribution {α : Type} (strategies : Registry α) (data : α)
    (name : String) : List Signal :=
  match dictGet strategies name with
  | none => []
  | some strat =>
    match strat data with
    | Except.ok signals => signals
    | Except.error _ => []

/-- The concatenation `all_signals` accumulated by the loop of
`StrategyManager.generate_signals`, in enabled-strategy order. -/
def concatContributions {α : Type} (enabled : List String)
    (strategies : Registry α) (data : α) : List Signal :=
  (enabled.map (contribution strategies data)).flatten

/-- The descending-by-confidence comparison of the sort in
`StrategyManager.generate_signals` (`key=lambda x: x.get('confidence', 0),
reverse=True`). -/
def confDescLe (a b : Signal) : Bool :=
  decide (b.confidence.getD 0 ≤ a.confidence.getD 0)

/-- The trailing sort step of `StrategyManager.generate_signals`:
`all_signals.sort(key=lambda x: x.get('confidence', 0), reverse=True)`
is run exactly when the list is nonempty and its first element carries a
confidence key; Python's sort is stable, as is `mergeSort`. -/
def sortByConfidence (l : List Signal) : List Signal :=
  match l with
  | [] => []
  | s :: _ =>
    if s.confidence.isSome then l.mergeSort confDescLe
    else l

/-- Embedding of `StrategyManager.generate_signals(data)`: concatenate
every enabled strategy's signals (missing and failing strategies
contribute nothing), then the conditional confidence sort. -/
def generate_signals {α : Type} (enabled : List String)
    (strategies : Registry α) (data : α) : List Signal :=
  sortByConfidence (concatContributions enabled strategies data)

/-- Python's builtin `max(signals, key=lambda x: x.get('confidence', 0))`:
scan left keeping the current element unless a strictly greater key
appears, so the first maximum wins. -/
def pyMaxByConf (head : Signal) (rest : List Signal) : Signal :=
  rest.foldl
    (fun best x => if best.confidence.getD 0 < x.confidence.getD 0 then x else best)
    head

/-- The "best signal" choice of `combine_signals`: the confidence maximum
when the FIRST signal of the side list carries a confidence key, else the
first signal. -/
def bestSignal (head : Signal) (rest : List Signal) : Signal :=
  if head.confidence.isSome then pyMaxByConf head rest else head

/-- Embedding of `StrategyManager.combine_signals(signals)`: majority vote
at the 0.6 threshold on each side's fraction, emitting one consolidated
signal per winning side. -/
def combine_signals (signals : List Signal) : List Signal :=
  let buy_signals := signals.filter (fun s => decide (s.side = Side.BUY))
  let sell_signals := signals.filter (fun s => decide (s.side = Side.SELL))
  let total_signals := signals.length
  if total_signals = 0 then []
  else
    let buy_percentage : ℚ := buy_signals.length / total_signals
    let sell_percentage : ℚ := sell_signals.length / total_signals
    let combined_buy : List Signal :=
      if buy_percentage > 3/5 then
        match buy_signals with
        | [] => []
        | h :: t => [bestSignal h t]
      else []
    let combined_sell : List Signal :=
      if sell_percentage > 3/5 then
        match sell_signals with
        | [] => []
        | h :: t => [bestSignal h t]
      else []
    combined_buy ++ combined_sell

end StrategyManager

/-- NaN-aware strict greater-than: any comparison against NaN (here:
`none`) is `False` in Python. -/
def oGT (a b : Option ℚ) : Bool :=
  match a, b with
  | some x, some y => decide (y < x)
  | _, _ => false

/-- NaN-aware strict less-than. -/
def oLT (a b : Option ℚ) : Bool :=
  match a, b with
  | some x, some y => decide (x < y)
  | _, _ => false

/-- NaN-aware less-or-equal. -/
def oLE (a b : Option ℚ) : Bool :=
  match a, b with
  | some x, some y => decide (x ≤ y)
  | _, _ => false

/-- NaN-aware greater-or-equal. -/
def oGE (a b : Option ℚ) : Bool :=
  match a, b with
  | some x, some y => decide (y ≤ x)
  | _, _ => false

/-- Pointwise combination of two possibly-NaN values (NaN propagates). -/
def omap2 (f : ℚ → ℚ → ℚ) (a b : Option ℚ) : Option ℚ :=
  match a, b with
  | some x, some y => some (f x y)
  | _, _ => none

/-- Pandas `series.rolling(window=w).max()`: NaN until the window is
full, then the window maximum. -/
def rollingMax (w : Nat) (xs : List ℚ) : List (Option ℚ) :=
  (List.range xs.length).map
    (fun i => if w ≤ i + 1 then ((xs.drop (i + 1 - w)).take w).max? else none)

/-- Pandas `series.rolling(window=w).min()`. -/
def rollingMin (w : Nat) (xs : List ℚ) : List (Option ℚ) :=
  (List.range xs.length).map
    (fun i => if w ≤ i + 1 then ((xs.drop (i + 1 - w)).take w).min? else none)

/-- Pandas `series.shift(k)` for `k ≥ 0` on a possibly-NaN column:
the first `k` entries become NaN. -/
def shiftForward (k : Nat) (xs : List (Option ℚ)) : List (Option ℚ) :=
  (List.range xs.length).map
    (fun i => if i < k then none else (xs.get? (i - k)).join)

/-- Pandas `series.shift(-k)` on a NaN-free column: the last `k` entries
become NaN. -/
def shiftBackward (k : Nat) (xs : List ℚ) : List (Option ℚ) :=
  (List.range xs.length).map (fun i => xs.get? (i + k))

/-- Pandas `series.iloc[-j]` (`j ≥ 1`): the `j`-th element from the end,
`none` when the index is out of range (an `IndexError` in Python). -/
def ilocNeg {β : Type} (l : List β) (j : Nat) : Option β :=
  if 0 < j ∧ j ≤ l.length then l.get? (l.length - j) else none

/-- Lift an `iloc` access into `Except`: out of range raises. -/
def getE {β : Type} (o : Option β) : Except String β :=
  match o with
  | some a => Except.ok a
  | none => Except.error "IndexError"

namespace IchimokuStrategy

/-- Embedding of the `IchimokuStrategy.get_account_balance` override:
a fixed placeholder balance. -/
def get_account_balance : ℚ := 10000

/-- Embedding of the `IchimokuStrategy.calculate_position_size` override
(same formula as `BaseStrategy`, over the placeholder balance). -/
def calculate_position_size (cfg : Config) (price : ℚ) (_side : Side) : ℚ :=
  let account_balance := get_account_balance
  let risk_amount := account_balance * cfg.RISK_PER_TRADE
  let position_size := risk_amount / price
  let position_size := min position_size cfg.MAX_POSITION_SIZE
  round_to 6 position_size

/-- The five Ichimoku columns added by
`IchimokuStrategy.calculate_ichimoku(df)`, as functions of the high, low
and close columns. -/
def tenkan_sen (p : IchimokuParams) (high low : List ℚ) : List (Option ℚ) :=
  List.zipWith (omap2 (fun a b => (a + b) / 2))
    (rollingMax p.tenkan_period high) (rollingMin p.tenkan_period low)

/-- Kijun-sen column of `calculate_ichimoku`. -/
def kijun_sen (p : IchimokuParams) (high low : List ℚ) : List (Option ℚ) :=
  List.zipWith (omap2 (fun a b => (a + b) / 2))
    (rollingMax p.kijun_period high) (rollingMin p.kijun_period low)

/-- Senkou Span A column of `calculate_ichimoku`. -/
def senkou_span_a (p : IchimokuParams) (high low : List ℚ) : List (Option ℚ) :=
  shiftForward p.displacement
    (List.zipWith (omap2 (fun a b => (a + b) / 2))
      (tenkan_sen p high low) (kijun_sen p high low))

/-- Senkou Span B column of `calculate_ichimoku`. -/
def senkou_span_b (p : IchimokuParams) (high low : List ℚ) : List (Option ℚ) :=
  shiftForward p.displacement
    (List.zipWith (omap2 (fun a b => (a + b) / 2))
      (rollingMax p.senkou_span_b_period high)
      (rollingMin p.senkou_span_b_period low))

/-- Chikou Span column of `calculate_ichimoku`. -/
def chikou_span (p : IchimokuParams) (close : List ℚ) : List (Option ℚ) :=
  shiftBackward p.displacement close

/-- Embedding of `IchimokuStrategy.generate_signals(data)`.  `now` stands
for `pd.Timestamp.now()`.  The function operates on a copy of its input
(`df = data.copy()`), computes the Ichimoku columns, returns no signals
when fewer than `senkou_span_b_period + displacement` candles are
available, and otherwise evaluates the TK-cross/cloud/Chikou conditions at
the last candle. -/
def generate_signals (cfg : Config) (now : ℤ) (data : List Candle) :
    Except String (List Signal) :=
  let p := cfg.ICHIMOKU
  let high := data.map (·.high)
  let low := data.map (·.low)
  let close := data.map (·.close)
  let tenkanCol := tenkan_sen p high low
  let kijunCol := kijun_sen p high low
  let spanACol := senkou_span_a p high low
  let spanBCol := senkou_span_b p high low
  let chikouCol := chikou_span p close
  let n := data.length
  if n < p.senkou_span_b_period + p.displacement then Except.ok []
  else
    match ilocNeg close 1, ilocNeg tenkanCol 1, ilocNeg kijunCol 1,
        ilocNeg spanACol 1, ilocNeg spanBCol 1,
        ilocNeg tenkanCol 2, ilocNeg kijunCol 2 with
    | some current_price, some tenkan, some kijun, some span_a, some span_b,
      some prev_tenkan, some prev_kijun =>
      let chikou : Option ℚ :=
        if p.displacement + 1 < n then (ilocNeg chikouCol (p.displacement + 1)).join
        else none
      let cloud_top := if oGT span_b span_a then span_b else span_a
      let cloud_bottom := if oLT span_b span_a then span_b else span_a
      let bullish_cloud := oGT span_a span_b
      let tk_cross_bullish := oGT tenkan kijun && oLE prev_tenkan prev_kijun
      let price_above_cloud := oGT (some current_price) cloud_top
      let chikou_bullish :=
        if 2 * p.displacement + 1 < n then
          match chikou, ilocNeg close (2 * p.displacement + 1) with
          | some c, some ref => decide (ref < c)
          | _, _ => false
        else false
      let buy_signal := tk_cross_bullish && price_above_cloud &&
        bullish_cloud && chikou_bullish
      let tk_cross_bearish := oLT tenkan kijun && oGE prev_tenkan prev_kijun
      let price_below_cloud := oLT (some current_price) cloud_bottom
      let chikou_bearish :=
        if 2 * p.displacement + 1 < n then
          match chikou, ilocNeg close (2 * p.displacement + 1) with
          | some c, some ref => decide (c < ref)
          | _, _ => false
        else false
      let sell_signal := tk_cross_bearish && price_below_cloud &&
        !bullish_cloud && chikou_bearish
      let buyPart : List Signal :=
        if buy_signal then
          match kijun with
          | some k =>
            [{ strategy := "ichimoku", symbol := cfg.SYMBOL, side := Side.BUY,
               price := some current_price,
               quantity := calculate_position_size cfg current_price Side.BUY,
               stop_loss := some (k * (99/100)),
               take_profit := some (current_price + (current_price - k) * 2),
               timestamp := now }]
          | none => []
        else []
      let sellPart : List Signal :=
        if sell_signal then
          match kijun with
          | some k =>
            [{ strategy := "ichimoku", symbol := cfg.SYMBOL, side := Side.SELL,
               price := some current_price,
               quantity := calculate_position_size cfg current_price Side.SELL,
               stop_loss := some (k * (101/100)),
               take_profit := some (current_price - (k - current_price) * 2),
               timestamp := now }]
          | none => []
        else []
      Except.ok (buyPart ++ sellPart)
    | _, _, _, _, _, _, _ => Except.error "IndexError"

end IchimokuStrategy

namespace DataProcessor

/-- A DataFrame as handled by `DataProcessor`: the candle columns plus the
indicator columns, each indicator column `none` while the frame does not
carry it.  (A well-formed frame has all present columns of equal length;
`open_time` is the index, in epoch milliseconds.) -/
structure DF where
  open_time : List ℤ := []
  open_p : List ℚ := []
  high : List ℚ := []
  low : List ℚ := []
  close : List ℚ := []
  volume : List ℚ := []
  sma_20 : Option (List (Option ℚ)) := none
  sma_50 : Option (List (Option ℚ)) := none
  sma_200 : Option (List (Option ℚ)) := none
  ema_12 : Option (List (Option ℚ)) := none
  ema_26 : Option (List (Option ℚ)) := none
  macd_line : Option (List (Option ℚ)) := none
  macd_signal : Option (List (Option ℚ)) := none
  macd_histogram : Option (List (Option ℚ)) := none
  rsi : Option (List (Option ℚ)) := none
  bb_upper : Option (List (Option ℚ)) := none
  bb_middle : Option (List (Option ℚ)) := none
  bb_lower : Option (List (Option ℚ)) := none
  obv : Option (List (Option ℚ)) := none
  vwap : Option (List (Option ℚ)) := none
  pivot : Option (List (Option ℚ)) := none
  r1 : Option (List (Option ℚ)) := none
  s1 : Option (List (Option ℚ)) := none
  r2 : Option (List (Option ℚ)) := none
  s2 : Option (List (Option ℚ)) := none
  r3 : Option (List (Option ℚ)) := none
  s3 : Option (List (Option ℚ)) := none
deriving DecidableEq

/-- The external `ta` indicator library, an out-of-repository collaborator:
a bundle of pure column transforms (`ta.trend.sma_indicator`,
`ta.trend.MACD`, `ta.momentum.RSIIndicator`, `ta.volatility.BollingerBands`,
`ta.volume.OnBalanceVolumeIndicator`).  Theorems about
`calculate_indicators` quantify over it. -/
structure TA where
  sma : List ℚ → Nat → List (Option ℚ)
  ema : List ℚ → Nat → List (Option ℚ)
  macd : List ℚ → List (Option ℚ)
  macd_signal : List ℚ → List (Option ℚ)
  macd_diff : List ℚ → List (Option ℚ)
  rsi : List ℚ → List (Option ℚ)
  bollinger_hband : List ℚ → List (Option ℚ)
  bollinger_mavg : List ℚ → List (Option ℚ)
  bollinger_lband : List ℚ → List (Option ℚ)
  on_balance_volume : List ℚ → List ℚ → List (Option ℚ)

/-- Pandas `series.shift(k)` read at row `i` of a NaN-free column. -/
def shiftedAt (k : Nat) (xs : List ℚ) (i : Nat) : Option ℚ :=
  if i < k then none else xs.get? (i - k)

/-- Embedding of `DataProcessor.calculate_vwap(df)`: rows are grouped by
the calendar day of `open_time`; within each day, in original row order,
`vwap = cumsum(volume × typical_price) / cumsum(volume)` with the typical
price `(high + low + close) / 3`.  A zero cumulative volume yields NaN.
The function works on `df.reset_index()` and returns a fresh frame with
the input's columns plus `vwap`; the input frame is not mutated. -/
def calculate_vwap (df : DF) : DF :=
  let n := df.close.length
  let dateOf := fun i => (df.open_time.getD i 0).fdiv 86400000
  let vwapAt := fun i =>
    let day := (List.range (i + 1)).filter (fun j => decide (dateOf j = dateOf i))
    let cum_vol := (day.map (fun j => df.volume.getD j 0)).sum
    let cum_vol_price := (day.map (fun j =>
      df.volume.getD j 0 *
        ((df.high.getD j 0 + df.low.getD j 0 + df.close.getD j 0) / 3))).sum
    if cum_vol = 0 then none else some (cum_vol_price / cum_vol)
  { df with vwap := some ((List.range n).map vwapAt) }

/-- Embedding of `DataProcessor.calculate_pivot_points(df)`: traditional
pivot levels from the H/L/C of the candle `lookback` rows back, added to a
copy of the frame (`df.copy()`); undefined (NaN) for the first `lookback`
rows. -/
def calculate_pivot_points (lookback : Nat) (df : DF) : DF :=
  let n := df.close.length
  let hS := shiftedAt lookback df.high
  let lS := shiftedAt lookback df.low
  let cS := shiftedAt lookback df.close
  let pv := fun i =>
    match hS i, lS i, cS i with
    | some h, some l, some c => some ((h + l + c) / 3)
    | _, _, _ => none
  let col := fun (f : Nat → Option ℚ) => some ((List.range n).map f)
  { df with
    pivot := col pv,
    r1 := col (fun i =>
      match pv i, lS i with
      | some p, some l => some (2 * p - l)
      | _, _ => none),
    s1 := col (fun i =>
      match pv i, hS i with
      | some p, some h => some (2 * p - h)
      | _, _ => none),
    r2 := col (fun i =>
      match pv i, hS i, lS i with
      | some p, some h, some l => some (p + (h - l))
      | _, _, _ => none),
    s2 := col (fun i =>
      match pv i, hS i, lS i with
      | some p, some h, some l => some (p - (h - l))
      | _, _, _ => none),
    r3 := col (fun i =>
      match pv i, hS i, lS i with
      | some p, some h, some l => some (h + 2 * (p - l))
      | _, _, _ => none),
    s3 := col (fun i =>
      match pv i, hS i, lS i with
      | some p, some h, some l => some (l - 2 * (h - p))
      | _, _, _ => none) }

/-- Embedding of `DataProcessor.calculate_indicators(df)`.  The Python
function assigns the moving-average, MACD, RSI, Bollinger and OBV columns
to the caller's frame IN PLACE, then rebinds its local `df` to the fresh
frames returned by `calculate_vwap` and `calculate_pivot_points`.  The
result is the pair (returned frame, caller's frame after the call); an
empty frame is returned unchanged. -/
def calculate_indicators (ta : TA) (lookback : Nat) (df : DF) : DF × DF :=
  if df.close.isEmpty then (df, df)
  else
    let df1 := { df with
      sma_20 := some (ta.sma df.close 20),
      sma_50 := some (ta.sma df.close 50),
      sma_200 := some (ta.sma df.close 200),
      ema_12 := some (ta.ema df.close 12),
      ema_26 := some (ta.ema df.close 26),
      macd_line := some (ta.macd df.close),
      macd_signal := some (ta.macd_signal df.close),
      macd_histogram := some (ta.macd_diff df.close),
      rsi := some (ta.rsi df.close),
      bb_upper := some (ta.bollinger_hband df.close),
      bb_middle := some (ta.bollinger_mavg df.close),
      bb_lower := some (ta.bollinger_lband df.close),
      obv := some (ta.on_balance_volume df.close df.volume) }
    let df2 := calculate_vwap df1
    let df3 := calculate_pivot_points lookback df2
    (df3, df1)

end DataProcessor

/-! Concrete fixtures (the repository's default configuration and small
concrete states/signals) used to instantiate the theorems below. -/

/-- The risk/strategy parameters of `config.py` (`Config.__init__`). -/
def cfg0 : Config :=
  { SYMBOL := "BTCUSDT"
    MAX_POSITION_SIZE := 1/100
    RISK_PER_TRADE := 1/100
    MAX_OPEN_TRADES := 3
    USE_STOP_LOSS := true
    STOP_LOSS_PCT := 1/50
    TAKE_PROFIT_PCT := 1/25
    USE_TRAILING_STOP := true
    TRAILING_STOP_PCT := 1/100
    ENABLED_STRATEGIES := ["ichimoku", "pivot_point", "vwap", "gap",
      "pullback", "range", "reversal", "breakout", "momentum", "scalping"]
    ICHIMOKU := ⟨9, 26, 52, 26⟩
    PIVOT_POINT_lookback_period := 1 }

/-- An account snapshot with 10000 USDT, no exposure, no open position. -/
def st1 : RiskManager.RMState :=
  { config := cfg0
    balances := [("USDT", 10000)]
    open_positions := [] }

/-- A candidate buy signal well inside every limit. -/
def sig1 : Signal :=
  { strategy := "ichimoku", symbol := "BTCUSDT", side := Side.BUY,
    price := some 50000, quantity := 1/500 }

/-- An account snapshot with exposure 9500 against an account value of
10000 (scenario: the exposure ceiling binds). -/
def st2 : RiskManager.RMState :=
  { config := cfg0
    balances := [("USDT", 10000), ("BTC", 9500)]
    open_positions := [] }

/-- An oversized buy signal (quantity 0.012 at price 50000) with no
stop-loss and no take-profit attached. -/
def sig2 : Signal :=
  { strategy := "ichimoku", symbol := "BTCUSDT", side := Side.BUY,
    price := some 50000, quantity := 3/250 }

/-- A buy signal whose dict carries no `price` key, so
`signal.get('price', 0)` yields 0. -/
def sigNoPrice : Signal :=
  { strategy := "x", symbol := "BTCUSDT", side := Side.BUY, quantity := 1/500 }

/-- A long open trade with stop-loss 49000 (trailing-stop scenario D). -/
def trade0 : RiskManager.Trade :=
  { symbol := "BTCUSDT", side := Side.BUY, price := 50000, stop_loss := 49000 }

/-- Market snapshot of trailing-stop scenario D, tick 1. -/
def snap1 : String → ℚ := fun _ => 50500

/-- Market snapshot of trailing-stop scenario D, tick 2. -/
def snap2 : String → ℚ := fun _ => 50000

/-- A sample candle. -/
def candle0 : Candle :=
  { open_time := 0, open_p := 100, high := 110, low := 90,
    close := 105, volume := 1 }

/-- A 30-candle series (scenario A: fewer than the 52 + 26 candles the
Ichimoku strategy needs). -/
def data30 : List Candle :=
  List.replicate 30 candle0

/-- A Buy signal carrying no confidence score. -/
def buyNoConf : Signal :=
  { strategy := "a", symbol := "BTCUSDT", side := Side.BUY,
    price := some 50000, quantity := 1/500 }

/-- A Buy signal carrying confidence 0.9. -/
def buyConf : Signal :=
  { strategy := "b", symbol := "BTCUSDT", side := Side.BUY,
    price := some 50100, quantity := 1/500, confidence := some (9/10) }

/-- A Sell signal carrying no confidence score (scenario E). -/
def sellNoConf : Signal :=
  { strategy := "c", symbol := "BTCUSDT", side := Side.SELL,
    price := some 49900, quantity := 1/500 }

/-- A second Buy signal carrying no confidence score (scenario E). -/
def buyNoConf2 : Signal :=
  { strategy := "d", symbol := "BTCUSDT", side := Side.BUY,
    price := some 50050, quantity := 1/500 }

/-- A signal with confidence 0.2. -/
def sigLowConf : Signal :=
  { strategy := "p", symbol := "BTCUSDT", side := Side.BUY,
    price := some 50000, quantity := 1/500, confidence := some (1/5) }

/-- A signal with no confidence score, generated between two that carry
one. -/
def sigNoConf : Signal :=
  { strategy := "q", symbol := "BTCUSDT", side := Side.SELL,
    price := some 50000, quantity := 1/500 }

/-- A signal with confidence 0.9. -/
def sigHighConf : Signal :=
  { strategy := "r", symbol := "BTCUSDT", side := Side.BUY,
    price := some 50000, quantity := 1/500, confidence := some (9/10) }

/-- A registry with a single strategy emitting, in order, a
confidence-0.2 signal, a signal with no confidence, and a
confidence-0.9 signal. -/
def reg7 : StrategyManager.Registry Unit :=
  [("s", fun _ => Except.ok [sigLowConf, sigNoConf, sigHighConf])]

/-- A registry whose two strategies both emit one confidence-carrying
signal. -/
def reg7w : StrategyManager.Registry Unit :=
  [("p", fun _ => Except.ok [sigLowConf]), ("r", fun _ => Except.ok [sigHighConf])]

/-- A registry with two working strategies around one that raises. -/
def reg5 : StrategyManager.Registry Unit :=
  [("good1", fun _ => Except.ok [sigLowConf]),
   ("bad", fun _ => Except.error "boom"),
   ("good2", fun _ => Except.ok [sigHighConf])]

/-- A trivial instantiation of the external `ta` library (each indicator
echoes its input column), used only to exhibit concrete frames. -/
def ta0 : DataProcessor.TA :=
  { sma := fun xs _ => xs.map some
    ema := fun xs _ => xs.map some
    macd := fun xs => xs.map some
    macd_signal := fun xs => xs.map some
    macd_diff := fun xs => xs.map some
    rsi := fun xs => xs.map some
    bollinger_hband := fun xs => xs.map some
    bollinger_mavg := fun xs => xs.map some
    bollinger_lband := fun xs => xs.map some
    on_balance_volume := fun xs _ => xs.map some }

/-- A one-row candle frame with no indicator columns. -/
def df0 : DataProcessor.DF :=
  { open_time := [0], open_p := [1], high := [3], low := [1],
    close := [2], volume := [5] }

/-! Helper lemmas about Python rounding. -/

theorem round_half_even_le (x : ℚ) : (round_half_even x : ℚ) ≤ x + 1/2 := by
  have h0 : (⌊x⌋ : ℚ) ≤ x := Int.floor_le x
  unfold round_half_even
  split_ifs with h1 h2 h3
  · linarith
  · push_cast
    linarith
  · linarith
  · push_cast
    have := not_lt.mp h1
    linarith

theorem round_half_even_le_int {x : ℚ} {m : ℤ} (h : x ≤ (m : ℚ)) :
    round_half_even x ≤ m := by
  have hf : ⌊x⌋ ≤ m := by
    have := Int.floor_mono h
    rwa [Int.floor_intCast] at this
  have hfx : (⌊x⌋ : ℚ) ≤ x := Int.floor_le x
  unfold round_half_even
  split_ifs with h1 h2 h3
  · exact hf
  · have hx : (⌊x⌋ : ℚ) < x := by linarith
    have : (⌊x⌋ : ℚ) < (m : ℚ) := lt_of_lt_of_le hx h
    have : ⌊x⌋ < m := by exact_mod_cast this
    omega
  · exact hf
  · have hge : 1/2 ≤ x - ⌊x⌋ := not_lt.mp h1
    have hx : (⌊x⌋ : ℚ) < x := by linarith
    have : (⌊x⌋ : ℚ) < (m : ℚ) := lt_of_lt_of_le hx h
    have : ⌊x⌋ < m := by exact_mod_cast this
    omega

theorem round_to_le (n : Nat) (x : ℚ) :
    round_to n x ≤ x + 1 / (2 * 10 ^ n) := by
  unfold round_to
  have hp : (0 : ℚ) < 10 ^ n := by positivity
  rw [div_le_iff hp]
  calc (round_half_even (x * 10 ^ n) : ℚ)
      ≤ x * 10 ^ n + 1/2 := round_half_even_le _
    _ = (x + 1 / (2 * 10 ^ n)) * 10 ^ n := by field_simp; ring

theorem round_to_le_of_le {n : Nat} {x M : ℚ} (h : x ≤ M) (k : ℤ)
    (hk : M = (k : ℚ) / 10 ^ n) : round_to n x ≤ M := by
  unfold round_to
  have hp : (0 : ℚ) < 10 ^ n := by positivity
  have hx : x * 10 ^ n ≤ (k : ℚ) := by
    rw [hk] at h
    have := mul_le_mul_of_nonneg_right h (le_of_lt hp)
    rwa [div_mul_cancel₀ _ (ne_of_gt hp)] at this
  have hr : (round_half_even (x * 10 ^ n) : ℚ) ≤ (k : ℚ) :=
    Int.cast_le.mpr (round_half_even_le_int hx)
  rw [hk]
  exact (div_le_div_right hp).mpr hr

/-! Claim C3. -/

/-- Claim C3, counterexample: at price 62500000 (account 10000, risk 1%,
configured max 0.01) the strategy-side sizing returns 0.000002, which
exceeds `account_value × risk_per_trade / price = 0.0000016`: the
6-decimal rounding of `calculate_position_size` rounds the quotient up. -/
theorem C3_counterexample :
    BaseStrategy.calculate_position_size cfg0 none 62500000 Side.BUY = 1/500000 ∧
    ¬ (BaseStrategy.calculate_position_size cfg0 none 62500000 Side.BUY ≤
        BaseStrategy.get_account_balance cfg0 none * cfg0.RISK_PER_TRADE / 62500000) := by
  have hbal : BaseStrategy.get_account_balance cfg0 none = 10000 := rfl
  have hmin : min ((10000:ℚ) * (1/100) / 62500000) (1/100) = 1/625000 := by
    rw [min_eq_left] <;> norm_num
  have hx : (1/625000 : ℚ) * 10 ^ 6 = 8/5 := by norm_num
  have hf : ⌊(8:ℚ)/5⌋ = 1 := by norm_num [Int.floor_eq_iff]
  have hround : round_to 6 (1/625000) = 1/500000 := by
    rw [round_to, hx, round_half_even, hf]
    norm_num
  have hval : BaseStrategy.calculate_position_size cfg0 none 62500000 Side.BUY
      = 1/500000 := by
    unfold BaseStrategy.calculate_position_size
    rw [hbal]
    show round_to 6 (min ((10000:ℚ) * cfg0.RISK_PER_TRADE / 62500000)
      cfg0.MAX_POSITION_SIZE) = 1/500000
    have h1 : cfg0.RISK_PER_TRADE = 1/100 := rfl
    have h2 : cfg0.MAX_POSITION_SIZE = 1/100 := rfl
    rw [h1, h2, hmin, hround]
  refine ⟨hval, ?_⟩
  rw [hval, hbal]
  norm_num [cfg0]

/-- Claim C3 (amended): the Risk-Manager sizing
`calculate_max_position_size` is at most the configured maximum and at
most `account_value × risk_per_trade / price` exactly; the strategy-side
`calculate_position_size` equals the 6-decimal rounding of the same
minimum, so it can exceed `account_value × risk_per_trade / price` by at
most half a unit in the sixth decimal (5·10⁻⁷) and stays below the
configured maximum whenever that maximum is a multiple of 10⁻⁶ (as the
repository's 0.01 is); with account 10000, risk 1%, price 50000 and max
0.01 both sizings return exactly 0.002. -/
theorem C3_position_size_bounds (st : RiskManager.RMState) (cfg : Config)
    (connection : Option (List (String × ℚ))) (side : Side) (symbol : String)
    (price : ℚ) (hp : 0 < price) :
    (RiskManager.calculate_max_position_size st symbol price ≤
        st.config.MAX_POSITION_SIZE
      ∧ RiskManager.calculate_max_position_size st symbol price ≤
        RiskManager.get_account_value st * st.config.RISK_PER_TRADE / price)
    ∧ BaseStrategy.calculate_position_size cfg connection price side ≤
        BaseStrategy.get_account_balance cfg connection * cfg.RISK_PER_TRADE / price
          + 1/2000000
    ∧ ((∃ k : ℤ, cfg.MAX_POSITION_SIZE = (k : ℚ) / 1000000) →
        BaseStrategy.calculate_position_size cfg connection price side ≤
          cfg.MAX_POSITION_SIZE)
    ∧ RiskManager.calculate_max_position_size st1 "BTCUSDT" 50000 = 1/500
    ∧ BaseStrategy.calculate_position_size cfg0 none 50000 side = 1/500 := by
  have hval : RiskManager.get_account_value st1 = 10000 := by
    have hq : quoteAsset cfg0.SYMBOL = "USDT" := by decide
    simp [RiskManager.get_account_value, st1, hq, dictGet]
  refine ⟨⟨min_le_right _ _, min_le_left _ _⟩, ?_, ?_, ?_, ?_⟩
  · unfold BaseStrategy.calculate_position_size
    have h1 : min (BaseStrategy.get_account_balance cfg connection *
        cfg.RISK_PER_TRADE / price) cfg.MAX_POSITION_SIZE ≤
        BaseStrategy.get_account_balance cfg connection * cfg.RISK_PER_TRADE / price :=
      min_le_left _ _
    have h2 := round_to_le 6 (min (BaseStrategy.get_account_balance cfg connection *
        cfg.RISK_PER_TRADE / price) cfg.MAX_POSITION_SIZE)
    have h3 : (1 : ℚ) / (2 * 10 ^ 6) = 1/2000000 := by norm_num
    rw [h3] at h2
    linarith
  · rintro ⟨k, hk⟩
    unfold BaseStrategy.calculate_position_size
    exact round_to_le_of_le (min_le_right _ _) k (by rw [hk]; norm_num)
  · unfold RiskManager.calculate_max_position_size
    rw [hval]
    have h1 : st1.config.RISK_PER_TRADE = 1/100 := rfl
    have h2 : st1.config.MAX_POSITION_SIZE = 1/100 := rfl
    rw [h1, h2]
    rw [min_eq_left] <;> norm_num
  · unfold BaseStrategy.calculate_position_size
    show round_to 6 (min (BaseStrategy.get_account_balance cfg0 none *
      cfg0.RISK_PER_TRADE / 50000) cfg0.MAX_POSITION_SIZE) = 1/500
    have hbal : BaseStrategy.get_account_balance cfg0 none = 10000 := rfl
    have h1 : cfg0.RISK_PER_TRADE = 1/100 := rfl
    have h2 : cfg0.MAX_POSITION_SIZE = 1/100 := rfl
    rw [hbal, h1, h2]
    have hmin : min ((10000:ℚ) * (1/100) / 50000) (1/100) = 1/500 := by
      rw [min_eq_left] <;> norm_num
    rw [hmin]
    have hx : (1/500 : ℚ) * 10 ^ 6 = 2000 := by norm_num
    have hf : ⌊(2000:ℚ)⌋ = 2000 := by
      exact_mod_cast Int.floor_intCast (α := ℚ) 2000
    rw [round_to, hx, round_half_even, hf]
    norm_num

/-- Claim C3, witness: the amended theorem applied at price 50000 with the
repository configuration (scenario B). -/
theorem C3_position_size_bounds_witness :
    (0:ℚ) < 50000 ∧
    RiskManager.calculate_max_position_size st1 "BTCUSDT" 50000 = 1/500 ∧
    BaseStrategy.calculate_position_size cfg0 none 50000 Side.BUY = 1/500 :=
  ⟨by norm_num,
   (C3_position_size_bounds st1 cfg0 none Side.BUY "BTCUSDT" 50000 (by norm_num)).2.2.2.1,
   (C3_position_size_bounds st1 cfg0 none Side.BUY "BTCUSDT" 50000 (by norm_num)).2.2.2.2⟩

/-! Claim C9. -/

/-- Claim C9: `calculate_risk_reward_ratio` returns
`|take_profit - entry| / |entry - stop_loss|` for a Buy trade, the
mirrored quotient `|entry - take_profit| / |stop_loss - entry|` for a Sell
trade, and exactly 0 whenever the risk denominator `|entry - stop_loss|`
is 0. -/
theorem C9_risk_reward_ratio (entry stop_loss take_profit : ℚ) :
    Utils.calculate_risk_reward_ratio entry stop_loss take_profit "BUY" =
      (if |entry - stop_loss| = 0 then 0
       else |take_profit - entry| / |entry - stop_loss|)
    ∧ Utils.calculate_risk_reward_ratio entry stop_loss take_profit "SELL" =
      (if |stop_loss - entry| = 0 then 0
       else |entry - take_profit| / |stop_loss - entry|)
    ∧ (|entry - stop_loss| = 0 →
        Utils.calculate_risk_reward_ratio entry stop_loss take_profit "BUY" = 0 ∧
        Utils.calculate_risk_reward_ratio entry stop_loss take_profit "SELL" = 0) := by
  have hb : pyUpper "BUY" = "BUY" := by decide
  have hs : ¬ (pyUpper "SELL" = "BUY") := by decide
  refine ⟨?_, ?_, ?_⟩
  · simp [Utils.calculate_risk_reward_ratio, hb]
  · simp [Utils.calculate_risk_reward_ratio, hs]
  · intro h
    have h' : |stop_loss - entry| = 0 := by rwa [abs_sub_comm]
    constructor
    · simp [Utils.calculate_risk_reward_ratio, hb, h]
    · simp [Utils.calculate_risk_reward_ratio, hs, h']

/-- Claim C9, witness: a degenerate trade whose stop equals its entry has
risk 0 and risk:reward ratio 0, on both sides. -/
theorem C9_risk_reward_ratio_witness :
    |(50000:ℚ) - 50000| = 0 ∧
    (Utils.calculate_risk_reward_ratio 50000 50000 52000 "BUY" = 0 ∧
     Utils.calculate_risk_reward_ratio 50000 50000 52000 "SELL" = 0) :=
  ⟨by norm_num, (C9_risk_reward_ratio 50000 50000 52000).2.2 (by norm_num)⟩

/-! Claim C1. -/

theorem validate_trade_accept_bound (st : RiskManager.RMState) (signal : Signal) :
    (RiskManager.validate_trade st signal).1 = true →
      RiskManager.calculate_exposure st +
        (RiskManager.validate_trade st signal).2.quantity * signal.price.getD 0 ≤
        RiskManager.get_account_value st * (9/10) := by
  simp only [RiskManager.validate_trade]
  split_ifs <;> simp_all

set_option maxHeartbeats 1000000 in
theorem validate_trade_checked_eq (st : RiskManager.RMState) (signal : Signal)
    (hp : signal.price.getD 0 ≠ 0) :
    RiskManager.validate_trade_checked st signal =
      Except.ok (RiskManager.validate_trade st signal) := by
  simp only [RiskManager.validate_trade_checked, RiskManager.validate_trade]
  rw [if_neg hp]
  split_ifs <;> rfl

/-- Claim C1, counterexample: a signal with no `price` key against a state
whose exposure (9500) already exceeds 0.9 × account value (9000).  The
claim demands that such a signal be rejected; the source instead raises
`ZeroDivisionError` in `calculate_max_position_size` (the
`risk_amount / price` division with `signal.get('price', 0) = 0`), which
propagates out of `validate_trade` — no `False` is ever returned. -/
theorem C1_counterexample :
    RiskManager.get_account_value st2 * (9/10) <
      RiskManager.calculate_exposure st2 +
        sigNoPrice.quantity * sigNoPrice.price.getD 0
    ∧ RiskManager.calculate_max_position_size_checked st2 sigNoPrice.symbol
        (sigNoPrice.price.getD 0) = Except.error "ZeroDivisionError"
    ∧ RiskManager.validate_trade_checked st2 sigNoPrice =
        Except.error "ZeroDivisionError"
    ∧ ∀ s' : Signal, RiskManager.validate_trade_checked st2 sigNoPrice ≠
        Except.ok (false, s') := by
  have hq : quoteAsset "BTCUSDT" = "USDT" := by decide
  have hb : baseAsset "BTCUSDT" = "BTC" := by decide
  have herr : RiskManager.validate_trade_checked st2 sigNoPrice =
      Except.error "ZeroDivisionError" := by
    simp [RiskManager.validate_trade_checked,
      RiskManager.oppositeDirectionConflict, st2, sigNoPrice, cfg0, dictGet]
  refine ⟨?_, ?_, herr, fun s' hcontra => ?_⟩
  · simp [RiskManager.get_account_value, RiskManager.calculate_exposure,
      st2, sigNoPrice, cfg0, hq, hb, dictGet]
    norm_num
  · simp [RiskManager.calculate_max_position_size_checked, sigNoPrice]
  · rw [herr] at hcontra
    cases hcontra

/-- Claim C1 (amended): every signal accepted by `validate_trade`
satisfies `total_exposure_before + final_quantity × price ≤ 0.9 ×
account_value`; for every signal carrying a nonzero price, any signal
for which that sum would be exceeded is rejected (and the error-aware
and totalized embeddings agree); a signal whose price key is missing or
0 that passes the open-trade-count and opposite-direction checks makes
`validate_trade` raise `ZeroDivisionError` instead of returning. -/
theorem C1_exposure_ceiling_amended (st : RiskManager.RMState) (signal : Signal) :
    (∀ s' : Signal, RiskManager.validate_trade_checked st signal =
        Except.ok (true, s') →
      RiskManager.calculate_exposure st + s'.quantity * signal.price.getD 0 ≤
        RiskManager.get_account_value st * (9/10))
    ∧ (signal.price.getD 0 ≠ 0 →
      RiskManager.validate_trade_checked st signal =
        Except.ok (RiskManager.validate_trade st signal)
      ∧ (RiskManager.get_account_value st * (9/10) <
          RiskManager.calculate_exposure st +
            (RiskManager.validate_trade st signal).2.quantity *
              signal.price.getD 0 →
        (RiskManager.validate_trade st signal).1 = false))
    ∧ (signal.price.getD 0 = 0 →
      st.open_positions.length < st.config.MAX_OPEN_TRADES →
      RiskManager.oppositeDirectionConflict st.open_positions signal.symbol
        signal.side = false →
      RiskManager.validate_trade_checked st signal =
        Except.error "ZeroDivisionError") := by
  refine ⟨?_, ?_, ?_⟩
  · intro s' hok
    by_cases hp : signal.price.getD 0 = 0
    · exfalso
      simp only [RiskManager.validate_trade_checked] at hok
      rw [if_pos hp] at hok
      split_ifs at hok <;> simp_all
    · rw [validate_trade_checked_eq st signal hp] at hok
      have h1 : RiskManager.validate_trade st signal = (true, s') := by
        injection hok
      have hb : (RiskManager.validate_trade st signal).1 = true := by rw [h1]
      have hs : s' = (RiskManager.validate_trade st signal).2 := by rw [h1]
      rw [hs]
      exact validate_trade_accept_bound st signal hb
  · intro hp
    refine ⟨validate_trade_checked_eq st signal hp, fun hgt => ?_⟩
    cases hb : (RiskManager.validate_trade st signal).1
    · rfl
    · exact absurd (validate_trade_accept_bound st signal hb) (not_le.mpr hgt)
  · intro hp h1 h2
    simp only [RiskManager.validate_trade_checked]
    rw [if_neg (not_le.mpr h1), if_neg (by simp [h2]), if_pos hp]

/-- Claim C1, witness: the in-limit buy `sig1` against `st1` (nonzero
price 50000) is accepted by the error-aware embedding and satisfies the
exposure bound; the oversized buy `sig2` against `st2` (exposure 9500,
trade value 100, account value 10000) has the ceiling exceeded and is
rejected; and the price-less signal against `st2` raises. -/
theorem C1_exposure_ceiling_amended_witness :
    RiskManager.calculate_exposure st1 +
      (RiskManager.validate_trade st1 sig1).2.quantity * sig1.price.getD 0 ≤
      RiskManager.get_account_value st1 * (9/10)
    ∧ (RiskManager.validate_trade st2 sig2).1 = false
    ∧ RiskManager.validate_trade_checked st2 sigNoPrice =
        Except.error "ZeroDivisionError" := by
  have hq : quoteAsset "BTCUSDT" = "USDT" := by decide
  have hb : baseAsset "BTCUSDT" = "BTC" := by decide
  have heval : (RiskManager.validate_trade st1 sig1).1 = true := by
    simp [RiskManager.validate_trade, RiskManager.calculate_exposure,
      RiskManager.get_account_value, RiskManager.calculate_max_position_size,
      RiskManager.oppositeDirectionConflict, RiskManager.min_position_size,
      st1, sig1, cfg0, hq, hb, dictGet]
    norm_num
  refine ⟨?_, ?_, ?_⟩
  · refine (C1_exposure_ceiling_amended st1 sig1).1
      (RiskManager.validate_trade st1 sig1).2 ?_
    rw [validate_trade_checked_eq st1 sig1 (by norm_num [sig1]), ← heval,
      Prod.mk.eta]
  · apply ((C1_exposure_ceiling_amended st2 sig2).2.1 (by norm_num [sig2])).2
    simp [RiskManager.validate_trade, RiskManager.calculate_exposure,
      RiskManager.get_account_value, RiskManager.calculate_max_position_size,
      RiskManager.oppositeDirectionConflict, RiskManager.min_position_size,
      st2, sig2, cfg0, hq, hb, dictGet]
    norm_num
  · exact (C1_exposure_ceiling_amended st2 sigNoPrice).2.2 rfl
      (by simp [st2, cfg0])
      (by simp [RiskManager.oppositeDirectionConflict, st2, dictGet])

/-! Claim C10. -/

/-- Claim C10: a signal that passes the position-count, direction and
minimum-size checks but hits the exposure ceiling is rejected with its
quantity already clamped to the maximum position size (when it exceeded
it) and its stop-loss and take-profit already backfilled: rejection is
not atomic with respect to the signal. -/
theorem C10_rejection_mutates_signal (st : RiskManager.RMState) (signal : Signal)
    (h1 : st.open_positions.length < st.config.MAX_OPEN_TRADES)
    (h2 : RiskManager.oppositeDirectionConflict st.open_positions
      signal.symbol signal.side = false)
    (h3 : ¬ (min signal.quantity (RiskManager.calculate_max_position_size st
      signal.symbol (signal.price.getD 0)) < RiskManager.min_position_size))
    (h4 : RiskManager.get_account_value st * (9/10) <
      RiskManager.calculate_exposure st +
        min signal.quantity (RiskManager.calculate_max_position_size st
          signal.symbol (signal.price.getD 0)) * signal.price.getD 0)
    (h5 : st.config.USE_STOP_LOSS = true) :
    (RiskManager.validate_trade st signal).1 = false
    ∧ (RiskManager.validate_trade st signal).2.quantity =
        min signal.quantity (RiskManager.calculate_max_position_size st
          signal.symbol (signal.price.getD 0))
    ∧ (RiskManager.calculate_max_position_size st signal.symbol
        (signal.price.getD 0) < signal.quantity →
        (RiskManager.validate_trade st signal).2.quantity =
          RiskManager.calculate_max_position_size st signal.symbol
            (signal.price.getD 0))
    ∧ (RiskManager.validate_trade st signal).2.stop_loss.isSome = true
    ∧ (RiskManager.validate_trade st signal).2.take_profit.isSome = true := by
  have hq : (if RiskManager.calculate_max_position_size st signal.symbol
        (signal.price.getD 0) < signal.quantity then
        RiskManager.calculate_max_position_size st signal.symbol (signal.price.getD 0)
      else signal.quantity) =
      min signal.quantity (RiskManager.calculate_max_position_size st
        signal.symbol (signal.price.getD 0)) := by
    rcases le_or_lt signal.quantity (RiskManager.calculate_max_position_size st
        signal.symbol (signal.price.getD 0)) with h | h
    · rw [if_neg (not_lt.mpr h), min_eq_left h]
    · rw [if_pos h, min_eq_right (le_of_lt h)]
  have h2' : ¬ (RiskManager.oppositeDirectionConflict st.open_positions
      signal.symbol signal.side = true) := by simp [h2]
  simp only [RiskManager.validate_trade]
  rw [if_neg (not_le.mpr h1), if_neg h2', hq, if_neg h3, if_pos h4]
  refine ⟨rfl, ?_, ?_, ?_, ?_⟩
  · split_ifs <;> rfl
  · intro hlt
    have hmr : min signal.quantity (RiskManager.calculate_max_position_size st
        signal.symbol (signal.price.getD 0)) =
        RiskManager.calculate_max_position_size st signal.symbol
          (signal.price.getD 0) := min_eq_right (le_of_lt hlt)
    split_ifs <;> exact hmr
  · rcases hsl : signal.stop_loss with _ | sl <;> split_ifs <;> simp_all
  · rcases htp : signal.take_profit with _ | tp <;> split_ifs <;> simp_all

/-- Claim C10, witness: the oversized bare signal `sig2` against state
`st2` passes the count/direction/minimum checks, is rejected at the
exposure ceiling, and comes back with its quantity clamped to the maximum
position size and stop-loss/take-profit backfilled. -/
theorem C10_rejection_mutates_signal_witness :
    (RiskManager.validate_trade st2 sig2).1 = false
    ∧ (RiskManager.validate_trade st2 sig2).2.quantity =
        RiskManager.calculate_max_position_size st2 sig2.symbol (sig2.price.getD 0)
    ∧ (RiskManager.validate_trade st2 sig2).2.stop_loss.isSome = true
    ∧ (RiskManager.validate_trade st2 sig2).2.take_profit.isSome = true := by
  have hqa : quoteAsset "BTCUSDT" = "USDT" := by decide
  have hba : baseAsset "BTCUSDT" = "BTC" := by decide
  have hav : RiskManager.get_account_value st2 = 10000 := by
    simp [RiskManager.get_account_value, st2, cfg0, hqa, dictGet]
  have hexp : RiskManager.calculate_exposure st2 = 9500 := by
    simp [RiskManager.calculate_exposure, st2, cfg0, hba, dictGet]
  have hmx : RiskManager.calculate_max_position_size st2 sig2.symbol
      (sig2.price.getD 0) = 1/500 := by
    unfold RiskManager.calculate_max_position_size
    rw [hav]
    show min ((10000:ℚ) * st2.config.RISK_PER_TRADE / (sig2.price.getD 0))
      st2.config.MAX_POSITION_SIZE = 1/500
    have h1 : st2.config.RISK_PER_TRADE = 1/100 := rfl
    have h2 : st2.config.MAX_POSITION_SIZE = 1/100 := rfl
    have h3 : sig2.price.getD 0 = 50000 := rfl
    rw [h1, h2, h3, min_eq_left] <;> norm_num
  have hqty : sig2.quantity = 3/250 := rfl
  obtain ⟨r1, _, r3, r4, r5⟩ := C10_rejection_mutates_signal st2 sig2
    (by simp [st2, cfg0])
    (by simp [RiskManager.oppositeDirectionConflict, st2, dictGet])
    (by rw [hmx, hqty]; rw [min_eq_right (by norm_num)]
        norm_num [RiskManager.min_position_size])
    (by rw [hmx, hqty, hexp, hav]
        rw [min_eq_right (by norm_num)]
        have h3 : sig2.price.getD 0 = 50000 := rfl
        rw [h3]; norm_num)
    rfl
  exact ⟨r1, r3 (by rw [hmx, hqty]; norm_num), r4, r5⟩

/-! Claim C2. -/

theorem adjustCycle_eq (cfg : Config) (pof : String → ℚ) (t : RiskManager.Trade) :
    RiskManager.adjustCycle cfg t pof =
      if cfg.USE_TRAILING_STOP = false then t else RiskManager.adjustTrade cfg pof t := by
  unfold RiskManager.adjustCycle RiskManager.adjust_stops
  split_ifs <;> simp

theorem adjustTrade_side (cfg : Config) (pof : String → ℚ) (t : RiskManager.Trade) :
    (RiskManager.adjustTrade cfg pof t).side = t.side := by
  simp only [RiskManager.adjustTrade]
  split_ifs <;> rfl

theorem adjustCycle_side (cfg : Config) (pof : String → ℚ) (t : RiskManager.Trade) :
    (RiskManager.adjustCycle cfg t pof).side = t.side := by
  rw [adjustCycle_eq]
  split_ifs
  · rfl
  · exact adjustTrade_side cfg pof t

theorem adjustTrade_stop_le (cfg : Config) (pof : String → ℚ)
    (t : RiskManager.Trade) (h : t.side = Side.BUY) :
    t.stop_loss ≤ (RiskManager.adjustTrade cfg pof t).stop_loss := by
  simp only [RiskManager.adjustTrade]
  rw [if_pos h]
  split_ifs with hc
  · exact le_of_lt hc
  · exact le_refl _

theorem adjustTrade_stop_ge (cfg : Config) (pof : String → ℚ)
    (t : RiskManager.Trade) (h : t.side = Side.SELL) :
    (RiskManager.adjustTrade cfg pof t).stop_loss ≤ t.stop_loss := by
  simp only [RiskManager.adjustTrade]
  rw [if_neg (by simp [h])]
  split_ifs with hc
  · exact le_of_lt hc
  · exact le_refl _

theorem adjustCycle_stop_le (cfg : Config) (pof : String → ℚ)
    (t : RiskManager.Trade) (h : t.side = Side.BUY) :
    t.stop_loss ≤ (RiskManager.adjustCycle cfg t pof).stop_loss := by
  rw [adjustCycle_eq]
  split_ifs
  · exact le_refl _
  · exact adjustTrade_stop_le cfg pof t h

theorem adjustCycle_stop_ge (cfg : Config) (pof : String → ℚ)
    (t : RiskManager.Trade) (h : t.side = Side.SELL) :
    (RiskManager.adjustCycle cfg t pof).stop_loss ≤ t.stop_loss := by
  rw [adjustCycle_eq]
  split_ifs
  · exact le_refl _
  · exact adjustTrade_stop_ge cfg pof t h

theorem scanl_head_eq {α β : Type} (f : α → β → α) (b : α) (l : List β) :
    (List.scanl f b l).head? = some b := by
  cases l <;> simp [List.scanl]

theorem trailingStops_chain_le (cfg : Config) (snaps : List (String → ℚ)) :
    ∀ t : RiskManager.Trade, t.side = Side.BUY →
      List.Chain' (· ≤ ·) (RiskManager.trailingStops cfg t snaps) := by
  induction snaps with
  | nil =>
    intro t _
    simp [RiskManager.trailingStops, List.scanl]
  | cons o os ih =>
    intro t ht
    unfold RiskManager.trailingStops
    rw [List.scanl_cons, List.singleton_append, List.map_cons]
    apply List.chain'_cons'.mpr
    refine ⟨?_, ?_⟩
    · intro y hy
      rw [List.head?_map, scanl_head_eq, Option.map_some'] at hy
      cases hy
      exact adjustCycle_stop_le cfg o t ht
    · have := ih (RiskManager.adjustCycle cfg t o)
        (by rw [adjustCycle_side]; exact ht)
      unfold RiskManager.trailingStops at this
      exact this

theorem trailingStops_chain_ge (cfg : Config) (snaps : List (String → ℚ)) :
    ∀ t : RiskManager.Trade, t.side = Side.SELL →
      List.Chain' (· ≥ ·) (RiskManager.trailingStops cfg t snaps) := by
  induction snaps with
  | nil =>
    intro t _
    simp [RiskManager.trailingStops, List.scanl]
  | cons o os ih =>
    intro t ht
    unfold RiskManager.trailingStops
    rw [List.scanl_cons, List.singleton_append, List.map_cons]
    apply List.chain'_cons'.mpr
    refine ⟨?_, ?_⟩
    · intro y hy
      rw [List.head?_map, scanl_head_eq, Option.map_some'] at hy
      cases hy
      exact adjustCycle_stop_ge cfg o t ht
    · have := ih (RiskManager.adjustCycle cfg t o)
        (by rw [adjustCycle_side]; exact ht)
      unfold RiskManager.trailingStops at this
      exact this

/-- Claim C2: under repeated `adjust_stops` cycles a long position's
stop-loss sequence is non-decreasing and a short position's is
non-increasing; per cycle the candidate `current_price × (1 ∓
trailing_stop_pct)` is applied exactly when it is strictly
tighter (greater for a long, less for a short) than the existing stop. -/
theorem C2_trailing_stop_ratchet (cfg : Config) (snaps : List (String → ℚ))
    (t : RiskManager.Trade) :
    (t.side = Side.BUY →
      List.Chain' (· ≤ ·) (RiskManager.trailingStops cfg t snaps))
    ∧ (t.side = Side.SELL →
      List.Chain' (· ≥ ·) (RiskManager.trailingStops cfg t snaps))
    ∧ (∀ pof : String → ℚ, cfg.USE_TRAILING_STOP = true → t.side = Side.BUY →
        (t.stop_loss < pof t.symbol * (1 - cfg.TRAILING_STOP_PCT) →
          (RiskManager.adjustCycle cfg t pof).stop_loss =
            pof t.symbol * (1 - cfg.TRAILING_STOP_PCT))
        ∧ (¬ t.stop_loss < pof t.symbol * (1 - cfg.TRAILING_STOP_PCT) →
          (RiskManager.adjustCycle cfg t pof).stop_loss = t.stop_loss))
    ∧ (∀ pof : String → ℚ, cfg.USE_TRAILING_STOP = true → t.side = Side.SELL →
        (pof t.symbol * (1 + cfg.TRAILING_STOP_PCT) < t.stop_loss →
          (RiskManager.adjustCycle cfg t pof).stop_loss =
            pof t.symbol * (1 + cfg.TRAILING_STOP_PCT))
        ∧ (¬ pof t.symbol * (1 + cfg.TRAILING_STOP_PCT) < t.stop_loss →
          (RiskManager.adjustCycle cfg t pof).stop_loss = t.stop_loss)) := by
  refine ⟨trailingStops_chain_le cfg snaps t, trailingStops_chain_ge cfg snaps t,
    ?_, ?_⟩
  · intro pof hu ht
    rw [adjustCycle_eq, if_neg (by simp [hu])]
    simp only [RiskManager.adjustTrade]
    rw [if_pos ht]
    constructor
    · intro hlt
      rw [if_pos hlt]
    · intro hge
      rw [if_neg hge]
  · intro pof hu ht
    rw [adjustCycle_eq, if_neg (by simp [hu])]
    simp only [RiskManager.adjustTrade]
    rw [if_neg (by simp [ht])]
    constructor
    · intro hlt
      rw [if_pos hlt]
    · intro hge
      rw [if_neg hge]

/-- Claim C2, witness (scenario D): a long with stop 49000 under prices
50500 then 50000 at 1% trailing goes 49000 → 49995 → 49995, a
non-decreasing chain. -/
theorem C2_trailing_stop_ratchet_witness :
    RiskManager.trailingStops cfg0 trade0 [snap1, snap2] = [49000, 49995, 49995]
    ∧ List.Chain' (· ≤ ·) (RiskManager.trailingStops cfg0 trade0 [snap1, snap2]) := by
  constructor
  · have hs1 : RiskManager.adjustCycle cfg0 trade0 snap1 =
        { trade0 with stop_loss := 49995 } := by
      rw [adjustCycle_eq, if_neg (by simp [cfg0])]
      simp only [RiskManager.adjustTrade]
      rw [if_pos (show trade0.side = Side.BUY from rfl)]
      rw [if_pos (by norm_num [trade0, snap1, cfg0])]
      norm_num [trade0, snap1, cfg0]
    have hs2 : RiskManager.adjustCycle cfg0 { trade0 with stop_loss := 49995 } snap2 =
        { trade0 with stop_loss := 49995 } := by
      rw [adjustCycle_eq, if_neg (by simp [cfg0])]
      simp only [RiskManager.adjustTrade]
      rw [if_pos (show ({ trade0 with stop_loss := 49995 } :
        RiskManager.Trade).side = Side.BUY from rfl)]
      rw [if_neg (by norm_num [trade0, snap2, cfg0])]
    unfold RiskManager.trailingStops
    rw [List.scanl_cons, hs1, List.scanl_cons, hs2, List.scanl_nil]
    simp [trade0]
  · exact (C2_trailing_stop_ratchet cfg0 [snap1, snap2] trade0).1 rfl

/-! Claim C4. -/

/-- Claim C4: on any candle series shorter than
`senkou_span_b_period + displacement`, the Ichimoku strategy's
`generate_signals` returns the empty signal list without raising. -/
theorem C4_insufficient_history (cfg : Config) (now : ℤ) (data : List Candle)
    (h : data.length <
      cfg.ICHIMOKU.senkou_span_b_period + cfg.ICHIMOKU.displacement) :
    IchimokuStrategy.generate_signals cfg now data = Except.ok [] := by
  simp only [IchimokuStrategy.generate_signals]
  rw [if_pos h]

/-- Claim C4, witness (scenario A): 30 candles against the periods 52 and
26 yield the empty signal list. -/
theorem C4_insufficient_history_witness :
    data30.length < cfg0.ICHIMOKU.senkou_span_b_period + cfg0.ICHIMOKU.displacement
    ∧ IchimokuStrategy.generate_signals cfg0 0 data30 = Except.ok [] :=
  ⟨by simp [data30, cfg0],
   C4_insufficient_history cfg0 0 data30 (by simp [data30, cfg0])⟩

/-! Claim C5. -/

/-- Claim C5: when one enabled strategy raises during signal generation,
`StrategyManager.generate_signals` returns exactly what it returns with
that strategy absent — the failing strategy contributes nothing, the other
strategies' concatenated signals are unaffected, and no exception escapes
(the embedding is total: the error is absorbed at the manager boundary). -/
theorem C5_strategy_failure_isolated {α : Type} (en₁ en₂ : List String)
    (nm : String) (strategies : StrategyManager.Registry α) (data : α)
    (g : α → Except String (List Signal)) (msg : String)
    (hg : dictGet strategies nm = some g)
    (he : g data = Except.error msg) :
    StrategyManager.concatContributions (en₁ ++ nm :: en₂) strategies data =
      StrategyManager.concatContributions (en₁ ++ en₂) strategies data
    ∧ StrategyManager.generate_signals (en₁ ++ nm :: en₂) strategies data =
      StrategyManager.generate_signals (en₁ ++ en₂) strategies data := by
  have hc : StrategyManager.contribution strategies data nm = [] := by
    simp [StrategyManager.contribution, hg, he]
  have h1 : StrategyManager.concatContributions (en₁ ++ nm :: en₂) strategies data =
      StrategyManager.concatContributions (en₁ ++ en₂) strategies data := by
    simp [StrategyManager.concatContributions, hc]
  exact ⟨h1, by unfold StrategyManager.generate_signals; rw [h1]⟩

/-- Claim C5, witness: with the middle strategy of three raising, the
manager's output equals the run over the two working strategies alone. -/
theorem C5_strategy_failure_isolated_witness :
    StrategyManager.generate_signals ["good1", "bad", "good2"] reg5 () =
      StrategyManager.generate_signals ["good1", "good2"] reg5 () :=
  (C5_strategy_failure_isolated ["good1"] ["good2"] "bad" reg5 ()
    (fun _ => Except.error "boom") "boom"
    (by simp [reg5, dictGet]) rfl).2

/-! Claim C7. -/

theorem confDescLe_trans (a b c : Signal) (hab : StrategyManager.confDescLe a b = true)
    (hbc : StrategyManager.confDescLe b c = true) :
    StrategyManager.confDescLe a c = true := by
  simp only [StrategyManager.confDescLe, decide_eq_true_eq] at *
  exact le_trans hbc hab

theorem confDescLe_total (a b : Signal) :
    (StrategyManager.confDescLe a b || StrategyManager.confDescLe b a) = true := by
  simp only [StrategyManager.confDescLe, Bool.or_eq_true, decide_eq_true_eq]
  exact le_total (b.confidence.getD 0) (a.confidence.getD 0)

/-- Claim C7 (amended): the concatenated signal list is sorted descending
by confidence exactly when it is nonempty and its FIRST signal carries a
confidence score — in particular when every signal carries one, the output
is a descending-by-confidence permutation of the concatenation; and the
original generation order is preserved exactly when the list is empty or
its first signal lacks a confidence score (even if later signals lack
one, the sort still runs when the first carries it). -/
theorem C7_confidence_sort {α : Type} (enabled : List String)
    (strategies : StrategyManager.Registry α) (data : α) :
    ((∀ s ∈ StrategyManager.concatContributions enabled strategies data,
        s.confidence.isSome = true) →
      List.Pairwise (fun a b : Signal => b.confidence.getD 0 ≤ a.confidence.getD 0)
        (StrategyManager.generate_signals enabled strategies data)
      ∧ (StrategyManager.generate_signals enabled strategies data).Perm
          (StrategyManager.concatContributions enabled strategies data))
    ∧ ((∀ s, (StrategyManager.concatContributions enabled strategies data).head? =
          some s → s.confidence = none) →
      StrategyManager.generate_signals enabled strategies data =
        StrategyManager.concatContributions enabled strategies data) := by
  cases hL : StrategyManager.concatContributions enabled strategies data with
  | nil =>
    constructor
    · intro _
      constructor
      · unfold StrategyManager.generate_signals
        rw [hL]
        simp [StrategyManager.sortByConfidence]
      · unfold StrategyManager.generate_signals
        rw [hL]
        simp [StrategyManager.sortByConfidence]
    · intro _
      unfold StrategyManager.generate_signals
      rw [hL]
      rfl
  | cons s rest =>
    constructor
    · intro hall
      have hs : s.confidence.isSome = true :=
        hall s (List.mem_cons_self _ _)
      have hgen : StrategyManager.generate_signals enabled strategies data =
          (s :: rest).mergeSort StrategyManager.confDescLe := by
        unfold StrategyManager.generate_signals
        rw [hL]
        simp [StrategyManager.sortByConfidence, hs]
      constructor
      · rw [hgen]
        exact (List.sorted_mergeSort confDescLe_trans confDescLe_total
          (s :: rest)).imp (fun h => by
            simpa [StrategyManager.confDescLe, decide_eq_true_eq] using h)
      · rw [hgen]
        exact List.mergeSort_perm _ _
    · intro hnone
      have hs : s.confidence = none := hnone s rfl
      unfold StrategyManager.generate_signals
      rw [hL]
      simp [StrategyManager.sortByConfidence, hs]

/-- Claim C7, counterexample: one strategy emits signals with confidences
0.2, none, 0.9 in that order; some signal lacks a confidence score, yet
the manager's output is NOT in generation order (the sort runs because
the first signal carries a confidence score). -/
theorem C7_counterexample :
    StrategyManager.concatContributions ["s"] reg7 () =
      [sigLowConf, sigNoConf, sigHighConf]
    ∧ sigNoConf.confidence = none
    ∧ StrategyManager.generate_signals ["s"] reg7 () ≠
        StrategyManager.concatContributions ["s"] reg7 () := by
  have hc : StrategyManager.concatContributions ["s"] reg7 () =
      [sigLowConf, sigNoConf, sigHighConf] := by
    simp [StrategyManager.concatContributions, StrategyManager.contribution,
      reg7, dictGet]
  refine ⟨hc, rfl, ?_⟩
  intro heq
  have hgen : StrategyManager.generate_signals ["s"] reg7 () =
      ([sigLowConf, sigNoConf, sigHighConf].mergeSort StrategyManager.confDescLe) := by
    unfold StrategyManager.generate_signals
    rw [hc]
    simp [StrategyManager.sortByConfidence, sigLowConf]
  rw [hgen, hc] at heq
  have hsorted := List.sorted_mergeSort confDescLe_trans confDescLe_total
    [sigLowConf, sigNoConf, sigHighConf]
  rw [heq] at hsorted
  have h2 := (List.pairwise_cons.mp (List.pairwise_cons.mp hsorted).2).1
    sigHighConf (List.mem_cons_self _ _)
  simp only [StrategyManager.confDescLe, decide_eq_true_eq] at h2
  norm_num [sigNoConf, sigHighConf] at h2

/-- Claim C7, witness: two strategies whose signals all carry confidence
scores; the manager's output is sorted descending by confidence and is a
permutation of the concatenation. -/
theorem C7_confidence_sort_witness :
    List.Pairwise (fun a b : Signal => b.confidence.getD 0 ≤ a.confidence.getD 0)
      (StrategyManager.generate_signals ["p", "r"] reg7w ())
    ∧ (StrategyManager.generate_signals ["p", "r"] reg7w ()).Perm
        (StrategyManager.concatContributions ["p", "r"] reg7w ()) :=
  (C7_confidence_sort ["p", "r"] reg7w ()).1 (by
    intro s hs
    simp [StrategyManager.concatContributions, StrategyManager.contribution,
      reg7w, dictGet] at hs
    rcases hs with rfl | rfl <;> rfl)

/-! Claim C8. -/

/-- Claim C8, counterexample: `calculate_indicators` mutates the caller's
frame — on a one-row frame with no indicator columns, the input frame has
gained an `sma_20` column by the time the call returns, so the call does
not leave the input series unchanged. -/
theorem C8_counterexample :
    (DataProcessor.calculate_indicators ta0 1 df0).2 ≠ df0 := by
  intro h
  have hcol := congrArg DataProcessor.DF.sma_20 h
  simp [DataProcessor.calculate_indicators, df0, ta0] at hcol

/-- Claim C8 (amended): `calculate_indicators` is a deterministic pure
function of the input frame and the `ta` library, and it never alters the
candle columns (index, OHLCV) of the caller's frame; but for a nonempty
frame it adds the moving-average/MACD/RSI/Bollinger/OBV columns to the
caller's frame in place, while the `vwap` and pivot columns appear only on
the freshly returned frame; an empty frame is returned unchanged. -/
theorem C8_frame_effect (ta : DataProcessor.TA) (lookback : Nat)
    (df : DataProcessor.DF) :
    ((DataProcessor.calculate_indicators ta lookback df).2.open_time = df.open_time
     ∧ (DataProcessor.calculate_indicators ta lookback df).2.open_p = df.open_p
     ∧ (DataProcessor.calculate_indicators ta lookback df).2.high = df.high
     ∧ (DataProcessor.calculate_indicators ta lookback df).2.low = df.low
     ∧ (DataProcessor.calculate_indicators ta lookback df).2.close = df.close
     ∧ (DataProcessor.calculate_indicators ta lookback df).2.volume = df.volume)
    ∧ ((DataProcessor.calculate_indicators ta lookback df).1.open_time = df.open_time
     ∧ (DataProcessor.calculate_indicators ta lookback df).1.close = df.close)
    ∧ (DataProcessor.calculate_indicators ta lookback df).2.vwap = df.vwap
    ∧ (DataProcessor.calculate_indicators ta lookback df).2.pivot = df.pivot
    ∧ (df.close.isEmpty = false →
        (DataProcessor.calculate_indicators ta lookback df).2.sma_20 =
          some (ta.sma df.close 20)
        ∧ (DataProcessor.calculate_indicators ta lookback df).2.rsi =
          some (ta.rsi df.close)
        ∧ (DataProcessor.calculate_indicators ta lookback df).1.vwap.isSome = true
        ∧ (DataProcessor.calculate_indicators ta lookback df).1.pivot.isSome = true)
    ∧ (df.close.isEmpty = true →
        DataProcessor.calculate_indicators ta lookback df = (df, df)) := by
  by_cases hemp : df.close.isEmpty
  · rw [show DataProcessor.calculate_indicators ta lookback df = (df, df) from by
      unfold DataProcessor.calculate_indicators
      rw [if_pos hemp]]
    refine ⟨⟨rfl, rfl, rfl, rfl, rfl, rfl⟩, ⟨rfl, rfl⟩, rfl, rfl, ?_, fun _ => rfl⟩
    intro hfalse
    rw [hemp] at hfalse
    cases hfalse
  · have hred : DataProcessor.calculate_indicators ta lookback df =
        (DataProcessor.calculate_pivot_points lookback
          (DataProcessor.calculate_vwap { df with
            sma_20 := some (ta.sma df.close 20),
            sma_50 := some (ta.sma df.close 50),
            sma_200 := some (ta.sma df.close 200),
            ema_12 := some (ta.ema df.close 12),
            ema_26 := some (ta.ema df.close 26),
            macd_line := some (ta.macd df.close),
            macd_signal := some (ta.macd_signal df.close),
            macd_histogram := some (ta.macd_diff df.close),
            rsi := some (ta.rsi df.close),
            bb_upper := some (ta.bollinger_hband df.close),
            bb_middle := some (ta.bollinger_mavg df.close),
            bb_lower := some (ta.bollinger_lband df.close),
            obv := some (ta.on_balance_volume df.close df.volume) }),
         { df with
            sma_20 := some (ta.sma df.close 20),
            sma_50 := some (ta.sma df.close 50),
            sma_200 := some (ta.sma df.close 200),
            ema_12 := some (ta.ema df.close 12),
            ema_26 := some (ta.ema df.close 26),
            macd_line := some (ta.macd df.close),
            macd_signal := some (ta.macd_signal df.close),
            macd_histogram := some (ta.macd_diff df.close),
            rsi := some (ta.rsi df.close),
            bb_upper := some (ta.bollinger_hband df.close),
            bb_middle := some (ta.bollinger_mavg df.close),
            bb_lower := some (ta.bollinger_lband df.close),
            obv := some (ta.on_balance_volume df.close df.volume) }) := by
      unfold DataProcessor.calculate_indicators
      rw [if_neg hemp]
    rw [hred]
    refine ⟨⟨?_, ?_, ?_, ?_, ?_, ?_⟩, ⟨?_, ?_⟩, rfl, rfl, fun _ =>
      ⟨rfl, rfl, ?_, ?_⟩, fun htrue => absurd htrue hemp⟩ <;>
      simp [DataProcessor.calculate_vwap, DataProcessor.calculate_pivot_points]

/-- Claim C8, witness: on the concrete one-row frame, the caller's frame
has the `sma_20` column filled in after the call, while the returned frame
carries `vwap` and pivot columns. -/
theorem C8_frame_effect_witness :
    df0.close.isEmpty = false
    ∧ (DataProcessor.calculate_indicators ta0 1 df0).2.sma_20 =
        some (ta0.sma df0.close 20)
    ∧ (DataProcessor.calculate_indicators ta0 1 df0).1.vwap.isSome = true :=
  ⟨rfl, ((C8_frame_effect ta0 1 df0).2.2.2.2.1 rfl).1,
   ((C8_frame_effect ta0 1 df0).2.2.2.2.1 rfl).2.2.1⟩

/-! Claim C6. -/

theorem pyMaxByConf_cons (h x : Signal) (xs : List Signal) :
    StrategyManager.pyMaxByConf h (x :: xs) =
      StrategyManager.pyMaxByConf
        (if h.confidence.getD 0 < x.confidence.getD 0 then x else h) xs := rfl

theorem pyMaxByConf_mem : ∀ (t : List Signal) (h : Signal),
    StrategyManager.pyMaxByConf h t ∈ h :: t := by
  intro t
  induction t with
  | nil =>
    intro h
    simp [StrategyManager.pyMaxByConf]
  | cons x xs ih =>
    intro h
    rw [pyMaxByConf_cons]
    by_cases hc : h.confidence.getD 0 < x.confidence.getD 0
    · rw [if_pos hc]
      exact List.mem_cons_of_mem h (ih x)
    · rw [if_neg hc]
      rcases List.mem_cons.mp (ih h) with h1 | h1
      · rw [h1]
        exact List.mem_cons_self _ _
      · exact List.mem_cons_of_mem _ (List.mem_cons_of_mem _ h1)

theorem pyMaxByConf_ge : ∀ (t : List Signal) (h : Signal), ∀ x ∈ h :: t,
    x.confidence.getD 0 ≤ (StrategyManager.pyMaxByConf h t).confidence.getD 0 := by
  intro t
  induction t with
  | nil =>
    intro h x hx
    rcases List.mem_cons.mp hx with rfl | hx'
    · exact le_refl _
    · exact absurd hx' (List.not_mem_nil x)
  | cons y ys ih =>
    intro h x hx
    rw [pyMaxByConf_cons]
    set h' := if h.confidence.getD 0 < y.confidence.getD 0 then y else h with hh'
    have hh : h.confidence.getD 0 ≤ h'.confidence.getD 0 := by
      rw [hh']
      split_ifs with hc
      · exact le_of_lt hc
      · exact le_refl _
    have hy : y.confidence.getD 0 ≤ h'.confidence.getD 0 := by
      rw [hh']
      split_ifs with hc
      · exact le_refl _
      · exact not_lt.mp hc
    have hmax : h'.confidence.getD 0 ≤
        (StrategyManager.pyMaxByConf h' ys).confidence.getD 0 :=
      ih h' h' (List.mem_cons_self _ _)
    rcases List.mem_cons.mp hx with rfl | hx'
    · exact le_trans hh hmax
    · rcases List.mem_cons.mp hx' with rfl | hx''
      · exact le_trans hy hmax
      · exact ih h' x (List.mem_cons_of_mem _ hx'')

theorem bestSignal_mem (h : Signal) (t : List Signal) :
    StrategyManager.bestSignal h t ∈ h :: t := by
  unfold StrategyManager.bestSignal
  split_ifs
  · exact pyMaxByConf_mem t h
  · exact List.mem_cons_self _ _

theorem frac_gt_iff (m n : ℕ) (hn : 0 < n) :
    ((m : ℚ) / n > 3/5) ↔ 3 * n < 5 * m := by
  have hn' : (0:ℚ) < n := by exact_mod_cast hn
  rw [gt_iff_lt, lt_div_iff hn']
  constructor
  · intro h
    have h' : (3:ℚ) * n < 5 * m := by linarith
    exact_mod_cast h'
  · intro h
    have h' : (3:ℚ) * n < 5 * m := by exact_mod_cast h
    linarith

theorem combine_signals_filter_buy (signals : List Signal) :
    (StrategyManager.combine_signals signals).filter
        (fun s => decide (s.side = Side.BUY)) =
      (if 3 * signals.length <
          5 * (signals.filter (fun s => decide (s.side = Side.BUY))).length then
        match signals.filter (fun s => decide (s.side = Side.BUY)) with
        | [] => []
        | h :: t => [StrategyManager.bestSignal h t]
      else []) := by
  have hBmem : ∀ x ∈ signals.filter (fun s => decide (s.side = Side.BUY)),
      x.side = Side.BUY := by
    intro x hx
    simpa using List.of_mem_filter hx
  have hSmem : ∀ x ∈ signals.filter (fun s => decide (s.side = Side.SELL)),
      x.side = Side.SELL := by
    intro x hx
    simpa using List.of_mem_filter hx
  by_cases hz : signals.length = 0
  · have hnil : signals = [] := List.length_eq_zero.mp hz
    subst hnil
    simp [StrategyManager.combine_signals]
  · have hn : 0 < signals.length := Nat.pos_of_ne_zero hz
    simp only [StrategyManager.combine_signals]
    rw [if_neg hz, List.filter_append]
    rcases hB : signals.filter (fun s => decide (s.side = Side.BUY)) with _ | ⟨bh, bt⟩ <;>
      rcases hS : signals.filter (fun s => decide (s.side = Side.SELL)) with _ | ⟨sh, st⟩ <;>
      rw [hB, hS]
    · split_ifs <;> simp
    · have hsside : (StrategyManager.bestSignal sh st).side = Side.SELL := by
        apply hSmem
        rw [hS]
        exact bestSignal_mem sh st
      split_ifs <;> simp [List.filter, hsside]
    · have hbside : (StrategyManager.bestSignal bh bt).side = Side.BUY := by
        apply hBmem
        rw [hB]
        exact bestSignal_mem bh bt
      by_cases hc : 3 * signals.length < 5 * ((bh :: bt : List Signal)).length
      · rw [if_pos ((frac_gt_iff _ _ hn).mpr hc), if_pos hc]
        split_ifs <;> simp [List.filter, hbside]
      · rw [if_neg (fun hq => hc ((frac_gt_iff _ _ hn).mp hq)), if_neg hc]
        split_ifs <;> simp
    · have hbside : (StrategyManager.bestSignal bh bt).side = Side.BUY := by
        apply hBmem
        rw [hB]
        exact bestSignal_mem bh bt
      have hsside : (StrategyManager.bestSignal sh st).side = Side.SELL := by
        apply hSmem
        rw [hS]
        exact bestSignal_mem sh st
      by_cases hc : 3 * signals.length < 5 * ((bh :: bt : List Signal)).length
      · rw [if_pos ((frac_gt_iff _ _ hn).mpr hc), if_pos hc]
        split_ifs <;> simp [List.filter, hbside, hsside]
      · rw [if_neg (fun hq => hc ((frac_gt_iff _ _ hn).mp hq)), if_neg hc]
        split_ifs <;> simp [List.filter, hbside, hsside]

theorem combine_signals_filter_sell (signals : List Signal) :
    (StrategyManager.combine_signals signals).filter
        (fun s => decide (s.side = Side.SELL)) =
      (if 3 * signals.length <
          5 * (signals.filter (fun s => decide (s.side = Side.SELL))).length then
        match signals.filter (fun s => decide (s.side = Side.SELL)) with
        | [] => []
        | h :: t => [StrategyManager.bestSignal h t]
      else []) := by
  have hBmem : ∀ x ∈ signals.filter (fun s => decide (s.side = Side.BUY)),
      x.side = Side.BUY := by
    intro x hx
    simpa using List.of_mem_filter hx
  have hSmem : ∀ x ∈ signals.filter (fun s => decide (s.side = Side.SELL)),
      x.side = Side.SELL := by
    intro x hx
    simpa using List.of_mem_filter hx
  by_cases hz : signals.length = 0
  · have hnil : signals = [] := List.length_eq_zero.mp hz
    subst hnil
    simp [StrategyManager.combine_signals]
  · have hn : 0 < signals.length := Nat.pos_of_ne_zero hz
    simp only [StrategyManager.combine_signals]
    rw [if_neg hz, List.filter_append]
    rcases hB : signals.filter (fun s => decide (s.side = Side.BUY)) with _ | ⟨bh, bt⟩ <;>
      rcases hS : signals.filter (fun s => decide (s.side = Side.SELL)) with _ | ⟨sh, st⟩ <;>
      rw [hB, hS]
    · split_ifs <;> simp
    · have hsside : (StrategyManager.bestSignal sh st).side = Side.SELL := by
        apply hSmem
        rw [hS]
        exact bestSignal_mem sh st
      by_cases hc : 3 * signals.length < 5 * ((sh :: st : List Signal)).length
      · rw [if_pos ((frac_gt_iff _ _ hn).mpr hc), if_pos hc]
        split_ifs <;> simp [List.filter, hsside]
      · rw [if_neg (fun hq => hc ((frac_gt_iff _ _ hn).mp hq)), if_neg hc]
        split_ifs <;> simp
    · have hbside : (StrategyManager.bestSignal bh bt).side = Side.BUY := by
        apply hBmem
        rw [hB]
        exact bestSignal_mem bh bt
      split_ifs <;> simp [List.filter, hbside]
    · have hbside : (StrategyManager.bestSignal bh bt).side = Side.BUY := by
        apply hBmem
        rw [hB]
        exact bestSignal_mem bh bt
      have hsside : (StrategyManager.bestSignal sh st).side = Side.SELL := by
        apply hSmem
        rw [hS]
        exact bestSignal_mem sh st
      by_cases hc : 3 * signals.length < 5 * ((sh :: st : List Signal)).length
      · rw [if_pos ((frac_gt_iff _ _ hn).mpr hc), if_pos hc]
        split_ifs <;> simp [List.filter, hbside, hsside]
      · rw [if_neg (fun hq => hc ((frac_gt_iff _ _ hn).mp hq)), if_neg hc]
        split_ifs <;> simp [List.filter, hbside, hsside]

/-- Claim C6 (amended): `combine_signals` emits nothing on empty input,
emits exactly one Buy signal exactly when the Buy fraction exceeds 0.6
(`5·buys > 3·total`), mirrored for Sell; the emitted signal is chosen by
inspecting the FIRST signal of the winning side: when that first signal
carries no confidence score the first signal itself is emitted, and when
it does carry one the maximal-confidence signal of that side (missing
confidence counted as 0) is emitted. -/
theorem C6_combine_signals (signals : List Signal) :
    (signals = [] → StrategyManager.combine_signals signals = [])
    ∧ ((StrategyManager.combine_signals signals).countP
        (fun s => decide (s.side = Side.BUY)) =
        if 3 * signals.length <
            5 * (signals.filter (fun s => decide (s.side = Side.BUY))).length
        then 1 else 0)
    ∧ ((StrategyManager.combine_signals signals).countP
        (fun s => decide (s.side = Side.SELL)) =
        if 3 * signals.length <
            5 * (signals.filter (fun s => decide (s.side = Side.SELL))).length
        then 1 else 0)
    ∧ (∀ h t, signals.filter (fun s => decide (s.side = Side.BUY)) = h :: t →
        3 * signals.length < 5 * (h :: t).length →
        (h.confidence = none →
          (StrategyManager.combine_signals signals).filter
            (fun s => decide (s.side = Side.BUY)) = [h])
        ∧ (h.confidence.isSome = true →
          ∃ b ∈ h :: t,
            (StrategyManager.combine_signals signals).filter
              (fun s => decide (s.side = Side.BUY)) = [b]
            ∧ ∀ x ∈ h :: t, x.confidence.getD 0 ≤ b.confidence.getD 0))
    ∧ (∀ h t, signals.filter (fun s => decide (s.side = Side.SELL)) = h :: t →
        3 * signals.length < 5 * (h :: t).length →
        (h.confidence = none →
          (StrategyManager.combine_signals signals).filter
            (fun s => decide (s.side = Side.SELL)) = [h])
        ∧ (h.confidence.isSome = true →
          ∃ b ∈ h :: t,
            (StrategyManager.combine_signals signals).filter
              (fun s => decide (s.side = Side.SELL)) = [b]
            ∧ ∀ x ∈ h :: t, x.confidence.getD 0 ≤ b.confidence.getD 0)) := by
  refine ⟨?_, ?_, ?_, ?_, ?_⟩
  · rintro rfl
    rfl
  · rw [List.countP_eq_length_filter, combine_signals_filter_buy]
    rcases hB : signals.filter (fun s => decide (s.side = Side.BUY)) with _ | ⟨h, t⟩ <;>
      rw [hB]
    · simp
    · split_ifs <;> simp
  · rw [List.countP_eq_length_filter, combine_signals_filter_sell]
    rcases hS : signals.filter (fun s => decide (s.side = Side.SELL)) with _ | ⟨h, t⟩ <;>
      rw [hS]
    · simp
    · split_ifs <;> simp
  · intro h t hB hfrac
    have hfil : (StrategyManager.combine_signals signals).filter
        (fun s => decide (s.side = Side.BUY)) = [StrategyManager.bestSignal h t] := by
      rw [combine_signals_filter_buy, hB, if_pos hfrac]
    constructor
    · intro hnone
      rw [hfil]
      unfold StrategyManager.bestSignal
      rw [if_neg (by simp [hnone])]
    · intro hsome
      refine ⟨StrategyManager.bestSignal h t, bestSignal_mem h t, hfil, ?_⟩
      intro x hx
      have hbest : StrategyManager.bestSignal h t =
          StrategyManager.pyMaxByConf h t := by
        unfold StrategyManager.bestSignal
        rw [if_pos hsome]
      rw [hbest]
      exact pyMaxByConf_ge t h x hx
  · intro h t hS hfrac
    have hfil : (StrategyManager.combine_signals signals).filter
        (fun s => decide (s.side = Side.SELL)) = [StrategyManager.bestSignal h t] := by
      rw [combine_signals_filter_sell, hS, if_pos hfrac]
    constructor
    · intro hnone
      rw [hfil]
      unfold StrategyManager.bestSignal
      rw [if_neg (by simp [hnone])]
    · intro hsome
      refine ⟨StrategyManager.bestSignal h t, bestSignal_mem h t, hfil, ?_⟩
      intro x hx
      have hbest : StrategyManager.bestSignal h t =
          StrategyManager.pyMaxByConf h t := by
        unfold StrategyManager.bestSignal
        rw [if_pos hsome]
      rw [hbest]
      exact pyMaxByConf_ge t h x hx

/-- Claim C6, counterexample: two Buy signals (fraction 1 > 0.6), the first
without a confidence score and the second with confidence 0.9;
`combine_signals` returns the FIRST Buy, not the highest-confidence Buy,
because the selection inspects only the first signal for a confidence key. -/
theorem C6_counterexample :
    (StrategyManager.combine_signals [buyNoConf, buyConf]).filter
      (fun s => decide (s.side = Side.BUY)) = [buyNoConf]
    ∧ buyConf.side = Side.BUY
    ∧ buyConf ∈ [buyNoConf, buyConf]
    ∧ buyNoConf.confidence = none
    ∧ buyConf.confidence = some (9/10)
    ∧ buyNoConf.confidence.getD 0 < buyConf.confidence.getD 0 := by
  refine ⟨?_, rfl, by simp, rfl, rfl, by norm_num [buyNoConf, buyConf]⟩
  rw [combine_signals_filter_buy]
  have hB : [buyNoConf, buyConf].filter (fun s => decide (s.side = Side.BUY)) =
      buyNoConf :: [buyConf] := rfl
  rw [hB, if_pos (by simp)]
  show [StrategyManager.bestSignal buyNoConf [buyConf]] = [buyNoConf]
  unfold StrategyManager.bestSignal
  rw [if_neg (by simp [buyNoConf])]

/-- Claim C6, witness (scenario E): 2 Buy and 1 Sell signal, none with
confidence scores — the combined output contains exactly the first Buy
and no Sell signal. -/
theorem C6_combine_signals_witness :
    (StrategyManager.combine_signals [buyNoConf, buyNoConf2, sellNoConf]).filter
      (fun s => decide (s.side = Side.BUY)) = [buyNoConf]
    ∧ (StrategyManager.combine_signals [buyNoConf, buyNoConf2, sellNoConf]).countP
      (fun s => decide (s.side = Side.SELL)) = 0 := by
  have h := C6_combine_signals [buyNoConf, buyNoConf2, sellNoConf]
  have hB : [buyNoConf, buyNoConf2, sellNoConf].filter
      (fun s => decide (s.side = Side.BUY)) = buyNoConf :: [buyNoConf2] := rfl
  have hS : [buyNoConf, buyNoConf2, sellNoConf].filter
      (fun s => decide (s.side = Side.SELL)) = [sellNoConf] := rfl
  constructor
  · exact (h.2.2.2.1 buyNoConf [buyNoConf2] hB (by simp)).1 rfl
  · rw [h.2.2.1, hS]
    simp
